import Mathlib

/-!
# maxclientapi-go: the session engine of `src/main.go`

A shallow embedding of the chat client of `src/main.go`: the decoded frames
(`map[string]interface{}`), the client state, the outbound commands with the
`send` path, `Stop`, `Connect`, the read loop, the mailbox, and the inbound
dispatcher `handleMessage` with its handlers (each call also with the state
it leaves when it panics); and of the upload routine of
`src/example_code/example.go`.  Theorems about the embedding follow the
definitions.
-/

namespace MaxClientApi

/-! ## Values held in an `interface{}` -/

/-- Go values as they occur in an `interface{}` of this program.  `null` is the
nil interface (also what JSON `null` decodes to), `int` a Go `int`/`int64`
(the literals `11`, `0`, `128`, `c.seq`, a caller's `chatID := 123456`),
`float` a finite `float64` (every JSON number decodes to one) given by its
exact rational value, `arr` a `[]interface{}`, `obj` a
`map[string]interface{}`.  `unsupported` stands for the values
`encoding/json` refuses to encode: a channel, a func, a complex number, a NaN
or an infinity. -/
inductive GoVal where
  | null
  | bool (b : Bool)
  | int (n : Int)
  | float (q : ℚ)
  | str (s : String)
  | arr (xs : List GoVal)
  | obj (kvs : List (String × GoVal))
  | unsupported

/-- A `map[string]interface{}` as its list of entries.  For a decoded frame
the entries stand in the order of the fields on the wire. -/
abbrev GoMap := List (String × GoVal)

/-- The index expression `m[k]`: the nil interface when the key is absent (or
the map is nil). -/
def GoMap.get (m : GoMap) (k : String) : GoVal :=
  match m.lookup k with
  | some v => v
  | none => GoVal.null

/-- The assignment `m[k] = v`: replaces the entry of `k`, or adds one. -/
def GoMap.set : GoMap → String → GoVal → GoMap
  | [], k, v => [(k, v)]
  | (k0, v0) :: rest, k, v =>
    if k0 = k then (k, v) :: rest else (k0, v0) :: GoMap.set rest k v

/-- The assertion `x, _ := v.(map[string]interface{})`: the nil map on failure. -/
def GoVal.asMap : GoVal → GoMap
  | GoVal.obj m => m
  | _ => []

/-- The assertion `x, _ := v.([]interface{})`: the nil slice on failure. -/
def GoVal.asSlice : GoVal → List GoVal
  | GoVal.arr xs => xs
  | _ => []

/-- The assertion `x, _ := v.(string)`: the empty string on failure. -/
def GoVal.asString : GoVal → String
  | GoVal.str s => s
  | _ => ""

/-- The conversion `int(f)` of a `float64` on a 64-bit target: the fraction is
discarded (truncation towards zero); a value outside the `int64` range gives
the minimal `int64`, as the amd64 conversion instruction does. -/
def goInt (q : ℚ) : Int :=
  let t := Int.tdiv q.num q.den
  if -2^63 ≤ t ∧ t < 2^63 then t else -2^63

mutual
/-- Whether `json.Marshal` accepts the value (returns no error). -/
def GoVal.encodable : GoVal → Bool
  | GoVal.unsupported => false
  | GoVal.arr xs => GoVal.encodableList xs
  | GoVal.obj kvs => GoVal.encodableFields kvs
  | _ => true
/-- Whether `json.Marshal` accepts every element of a slice. -/
def GoVal.encodableList : List GoVal → Bool
  | [] => true
  | x :: xs => GoVal.encodable x && GoVal.encodableList xs
/-- Whether `json.Marshal` accepts every value of a map. -/
def GoVal.encodableFields : List (String × GoVal) → Bool
  | [] => true
  | (_, x) :: xs => GoVal.encodable x && GoVal.encodableFields xs
end

/-! ## The client -/

/-- The socket `*websocket.Conn` behind `c.ws`; `closed` is set by `Close()`. -/
structure Conn where
  closed : Bool

/-- The state of a `ChatClient`, together with a record of what it did to the
outside.

`ws = none` is the nil pointer.  `seq` is the Go `int` counter; it starts at 0
and grows by one per envelope, so the 64-bit range is out of reach and the
counter is taken as an integer.  `messages` is the buffer of the channel
`c.messages`: the events sent and not yet received, oldest first; the channel
has room for `mailboxCapacity` of them.  `stopChanClosed` tells whether
`close(c.stopChan)` has run.

Record fields: `written` lists the envelopes whose JSON encoding `send` passed
to `c.ws.WriteMessage`, in call order; `reconnects` counts the goroutines
started by `send` that sleep two seconds and then run `c.Connect()` and
`c.StartKeepalive(25 * time.Second)`. -/
structure ChatClient where
  URL : String
  Token : String
  WatchChats : List String
  UserAgent : String
  DeviceName : String
  HeaderUserAgent : String
  OSVersion : String
  DeviceID : String
  Origin : String
  ws : Option Conn
  seq : Int
  running : Bool
  messages : List GoMap
  allowReconnect : Bool
  debug : Bool
  stopChanClosed : Bool
  written : List GoMap
  reconnects : Nat

/-- A functional option of `NewChatClient` (the Go type `Option`). -/
abbrev ClientOption := ChatClient → ChatClient

/-- Option `WithWatchChats`. -/
def WithWatchChats (chats : List String) : ClientOption :=
  fun c => { c with WatchChats := chats }

/-- Option `WithUserAgent`. -/
def WithUserAgent (userAgent : String) : ClientOption :=
  fun c => { c with UserAgent := userAgent }

/-- Option `WithDebug`. -/
def WithDebug (debug : Bool) : ClientOption :=
  fun c => { c with debug := debug }

/-- Option `WithAllowReconnect`. -/
def WithAllowReconnect (allow : Bool) : ClientOption :=
  fun c => { c with allowReconnect := allow }

/-- The constructor `NewChatClient`: defaults, then the options in order, then
`HeaderUserAgent` copied from `UserAgent`. -/
def NewChatClient (token deviceID : String) (options : List ClientOption) : ChatClient :=
  let client : ChatClient :=
    { URL := "wss://ws-api.oneme.ru/websocket"
      Token := token
      DeviceID := deviceID
      WatchChats := []
      UserAgent := "Mozilla/5.0 (X11; Ubuntu; Linux x86_64; rv:144.0) Gecko/20100101 Firefox/144.0"
      DeviceName := "Firefox"
      HeaderUserAgent := ""
      OSVersion := "Linux"
      Origin := "https://web.max.ru"
      ws := none
      messages := []
      allowReconnect := false
      debug := false
      seq := 0
      running := false
      stopChanClosed := false
      written := []
      reconnects := 0 }
  let client := options.foldl (fun cl option => option cl) client
  { client with HeaderUserAgent := client.UserAgent }

/-- A run-time panic of the Go program. -/
inductive Fault where
  | closeOfClosedChannel
  deriving DecidableEq, Repr

/-- The method `Stop`: clears `running`, closes `stopChan` (closing a channel
that is already closed panics), then closes the socket when there is one. -/
def Stop (c : ChatClient) : Except Fault ChatClient :=
  let c := { c with running := false }
  if c.stopChanClosed then Except.error Fault.closeOfClosedChannel
  else
    let c := { c with stopChanClosed := true }
    match c.ws with
    | some conn => Except.ok { c with ws := some { conn with closed := true } }
    | none => Except.ok c

/-- The method `send` (the mutex only matters between goroutines).  Without a
socket it calls `Stop` and, when `allowReconnect` is set, starts the reconnect
goroutine.  Otherwise the envelope is encoded; an encoding error drops it; the
encoding is handed to `WriteMessage`, whose result only changes what is
logged. -/
def send (c : ChatClient) (data : GoMap) (sendType : String) : Except Fault ChatClient :=
  match c.ws with
  | none =>
    match Stop c with
    | Except.error f => Except.error f
    | Except.ok c =>
      if c.allowReconnect then Except.ok { c with reconnects := c.reconnects + 1 }
      else Except.ok c
  | some _ =>
    if !(GoVal.obj data).encodable then Except.ok c
    else Except.ok { c with written := c.written ++ [data] }

/-- The method `SendMessage`; `now` is the value of `time.Now().UnixMilli()`. -/
def SendMessage (c : ChatClient) (chatID : GoVal) (text : String) (now : Int) :
    Except Fault ChatClient :=
  let c := { c with seq := c.seq + 1 }
  let payload : GoMap :=
    [("ver", GoVal.int 11), ("cmd", GoVal.int 0), ("seq", GoVal.int c.seq),
     ("opcode", GoVal.int 64),
     ("payload", GoVal.obj
       [("chatId", chatID),
        ("message", GoVal.obj [("text", GoVal.str text), ("cid", GoVal.int now),
           ("elements", GoVal.arr []), ("attaches", GoVal.arr [])]),
        ("notify", GoVal.bool true)])]
  match send c payload "Message" with
  | Except.error f => Except.error f
  | Except.ok c =>
    let c := { c with seq := c.seq + 1 }
    let payload1 : GoMap :=
      [("ver", GoVal.int 11), ("cmd", GoVal.int 0), ("seq", GoVal.int c.seq),
       ("opcode", GoVal.int 177),
       ("payload", GoVal.obj [("chatId", chatID), ("time", GoVal.int 0)])]
    send c payload1 ""

/-- The method `GetVideoURL`. -/
def GetVideoURL (c : ChatClient) (videoID chatID messageID : GoVal) : Except Fault ChatClient :=
  let c := { c with seq := c.seq + 1 }
  let payload : GoMap :=
    [("ver", GoVal.int 11), ("cmd", GoVal.int 0), ("seq", GoVal.int c.seq),
     ("opcode", GoVal.int 83),
     ("payload", GoVal.obj
       [("videoId", videoID), ("chatId", chatID), ("messageId", messageID)])]
  send c payload "Get video URL"

/-- The method `SubscribeChat`. -/
def SubscribeChat (c : ChatClient) (chatID : GoVal) : Except Fault ChatClient :=
  let c := { c with seq := c.seq + 1 }
  let payload : GoMap :=
    [("ver", GoVal.int 11), ("cmd", GoVal.int 0), ("seq", GoVal.int c.seq),
     ("opcode", GoVal.int 75),
     ("payload", GoVal.obj [("chatId", chatID), ("subscribe", GoVal.bool true)])]
  send c payload "Subscribe chat"

/-- The method `RequestURLToSendFile`. -/
def RequestURLToSendFile (c : ChatClient) (count : Int) : Except Fault ChatClient :=
  let c := { c with seq := c.seq + 1 }
  let payload : GoMap :=
    [("ver", GoVal.int 11), ("cmd", GoVal.int 0), ("seq", GoVal.int c.seq),
     ("opcode", GoVal.int 87),
     ("payload", GoVal.obj [("count", GoVal.int count)])]
  send c payload "Request URL to send file"

/-- The method `SendFile`; `now` is the value of `time.Now().UnixMilli()`. -/
def SendFile (c : ChatClient) (chatID fileID : GoVal) (now : Int) : Except Fault ChatClient :=
  let c := { c with seq := c.seq + 1 }
  let payload : GoMap :=
    [("ver", GoVal.int 11), ("cmd", GoVal.int 0), ("seq", GoVal.int c.seq),
     ("opcode", GoVal.int 64),
     ("payload", GoVal.obj
       [("chatId", chatID),
        ("message", GoVal.obj [("cid", GoVal.int now),
           ("attaches", GoVal.arr
             [GoVal.obj [("_type", GoVal.str "FILE"), ("fileId", fileID)]])]),
        ("notify", GoVal.bool true)])]
  send c payload "File"

/-- One tick of the ticker in the goroutine of `StartKeepalive`: the goroutine
ends when the client is not running, else a ping is sent. -/
def keepaliveTick (c : ChatClient) : Except Fault ChatClient :=
  if !c.running then Except.ok c
  else
    let c := { c with seq := c.seq + 1 }
    let pingPayload : GoMap :=
      [("ver", GoVal.int 11), ("cmd", GoVal.int 0), ("seq", GoVal.int c.seq),
       ("opcode", GoVal.int 1),
       ("payload", GoVal.obj [("interactive", GoVal.bool false)])]
    send c pingPayload ""

/-- An outbound command call with its arguments. -/
inductive Command where
  | sendMessage (chatID : GoVal) (text : String) (now : Int)
  | sendFile (chatID fileID : GoVal) (now : Int)
  | subscribeChat (chatID : GoVal)
  | getVideoURL (videoID chatID messageID : GoVal)
  | requestURLToSendFile (count : Int)
  | ping

/-- Runs one command call on the client. -/
def Command.run (c : ChatClient) : Command → Except Fault ChatClient
  | Command.sendMessage chatID text now => SendMessage c chatID text now
  | Command.sendFile chatID fileID now => SendFile c chatID fileID now
  | Command.subscribeChat chatID => SubscribeChat c chatID
  | Command.getVideoURL videoID chatID messageID => GetVideoURL c videoID chatID messageID
  | Command.requestURLToSendFile count => RequestURLToSendFile c count
  | Command.ping => keepaliveTick c

/-- Whether `json.Marshal` accepts every argument of the call. -/
def Command.encodable : Command → Bool
  | Command.sendMessage chatID _ _ => chatID.encodable
  | Command.sendFile chatID fileID _ => chatID.encodable && fileID.encodable
  | Command.subscribeChat chatID => chatID.encodable
  | Command.getVideoURL videoID chatID messageID =>
    videoID.encodable && chatID.encodable && messageID.encodable
  | Command.requestURLToSendFile _ => true
  | Command.ping => true

/-- Runs the command calls one after another; a panic ends the run. -/
def runCommands : ChatClient → List Command → Except Fault ChatClient
  | c, [] => Except.ok c
  | c, cmd :: rest =>
    match cmd.run c with
    | Except.error f => Except.error f
    | Except.ok c => runCommands c rest

/-- The `seq` field of an envelope, when it is a Go `int`. -/
def seqOf (env : GoMap) : Option Int :=
  match env.get "seq" with
  | GoVal.int n => some n
  | _ => none

/-- The `opcode` field of an envelope, when it is a Go `int`. -/
def opcodeOf (env : GoMap) : Option Int :=
  match env.get "opcode" with
  | GoVal.int n => some n
  | _ => none

/-! ## Inbound frames -/

/-- The capacity of the channel `c.messages`, from
`make(chan map[string]interface{}, 100)` in `NewChatClient`. -/
def mailboxCapacity : Nat := 100

/-- The read-loop goroutine at the point up to which a handler runs: `client`
is the client at that point.  `pending` is empty when the handler has
returned.  Otherwise the channel is full and the handler is suspended in the
send `c.messages <- ev` of the first entry of `pending`; the later entries
are the events it sends, in this order, once a receive lets it go on. -/
structure Handled where
  client : ChatClient
  pending : List GoMap

/-- The channel send `c.messages <- ev` of a handler.  It completes at once
when the handler is running and the buffer holds fewer than
`mailboxCapacity` events; otherwise the handler is suspended and the event
waits. -/
def push (h : Handled) (ev : GoMap) : Handled :=
  if h.pending.length = 0 ∧ h.client.messages.length < mailboxCapacity then
    { h with client := { h.client with messages := h.client.messages ++ [ev] } }
  else { h with pending := h.pending ++ [ev] }

/-- The handler `handlePhotoAttach`. -/
def handlePhotoAttach (h : Handled) (attach : GoMap) (chatID sender : GoVal)
    (text : String) (messageData payload : GoMap) : Handled :=
  let mediaType := if text ≠ "" then "photo_with_text" else "photo"
  let mediaInfo : GoMap :=
    [("opcode", GoVal.int 128),
     ("type", GoVal.str mediaType),
     ("chat_id", chatID),
     ("sender", sender),
     ("id", messageData.get "id"),
     ("time", messageData.get "time"),
     ("utype", messageData.get "type"),
     ("baseUrl", attach.get "baseUrl"),
     ("previewData", attach.get "previewData"),
     ("photoToken", attach.get "photoToken"),
     ("width", attach.get "width"),
     ("photoId", attach.get "photoId"),
     ("height", attach.get "height"),
     ("raw", GoVal.obj attach)]
  let mediaInfo := if text ≠ "" then mediaInfo.set "text" (GoVal.str text) else mediaInfo
  push h mediaInfo

/-- The handler `handleVideoAttach`. -/
def handleVideoAttach (h : Handled) (attach : GoMap) (chatID sender : GoVal)
    (text : String) (messageData payload : GoMap) : Handled :=
  let mediaType := if text ≠ "" then "video_with_text" else "video"
  let mediaInfo : GoMap :=
    [("opcode", GoVal.int 128),
     ("type", GoVal.str mediaType),
     ("chat_id", chatID),
     ("sender", sender),
     ("thumbnail", attach.get "thumbnail"),
     ("duration", attach.get "duration"),
     ("width", attach.get "width"),
     ("videoId", attach.get "videoId"),
     ("token", attach.get "token"),
     ("height", attach.get "height"),
     ("raw", GoVal.obj attach),
     ("id", messageData.get "id"),
     ("time", messageData.get "time"),
     ("utype", messageData.get "type"),
     ("prevMessageId", payload.get "prevMessageId")]
  let mediaInfo := if text ≠ "" then mediaInfo.set "text" (GoVal.str text) else mediaInfo
  push h mediaInfo

/-- The handler `handleFileAttach`. -/
def handleFileAttach (h : Handled) (attach : GoMap) (chatID sender : GoVal)
    (messageData : GoMap) : Handled :=
  let mediaInfo : GoMap :=
    [("opcode", GoVal.int 128),
     ("type", GoVal.str "file"),
     ("chatId", chatID),
     ("sender", sender),
     ("id", messageData.get "id"),
     ("name", attach.get "name"),
     ("size", attach.get "size"),
     ("fileId", attach.get "fileId"),
     ("token", attach.get "token")]
  push h mediaInfo

/-- The handler `handleShareAttach`. -/
def handleShareAttach (h : Handled) (chatID sender : GoVal) (text : String) : Handled :=
  let mediaInfo : GoMap :=
    [("opcode", GoVal.int 128),
     ("type", GoVal.str "link"),
     ("chat_id", chatID),
     ("sender", sender),
     ("text", GoVal.str text)]
  push h mediaInfo

/-- The body of the loop over `attaches` in `handleOpcode128`: the switch on
the `_type` of one attachment. -/
def handleAttach (h : Handled) (attach : GoVal) (chatID sender : GoVal)
    (text : String) (messageData payload : GoMap) : Handled :=
  let attachMap := attach.asMap
  let mediaType := (attachMap.get "_type").asString
  if mediaType = "PHOTO" then handlePhotoAttach h attachMap chatID sender text messageData payload
  else if mediaType = "VIDEO" then
    handleVideoAttach h attachMap chatID sender text messageData payload
  else if mediaType = "FILE" then handleFileAttach h attachMap chatID sender messageData
  else if mediaType = "SHARE" then handleShareAttach h chatID sender text
  else h

/-- The handler `handleOpcode128`. -/
def handleOpcode128 (h : Handled) (jsonData : GoMap) : Handled :=
  let payload := (jsonData.get "payload").asMap
  let messageData := (payload.get "message").asMap
  let chatID := payload.get "chatId"
  let sender := messageData.get "sender"
  let text := (messageData.get "text").asString
  let attaches := (messageData.get "attaches").asSlice
  let elements := (messageData.get "elements").asSlice
  if attaches.length > 0 then
    attaches.foldl (fun h attach => handleAttach h attach chatID sender text messageData payload) h
  else if elements.length > 0 then
    handleShareAttach h chatID sender text
  else if text ≠ "" then
    let textInfo : GoMap :=
      [("opcode", GoVal.int 128),
       ("type", GoVal.str "text"),
       ("chat_id", chatID),
       ("sender", sender),
       ("text", GoVal.str text),
       ("id", messageData.get "id"),
       ("time", messageData.get "time"),
       ("utype", messageData.get "type"),
       ("prevMessageId", payload.get "prevMessageId")]
    push h textInfo
  else h

/-- The order in which one `for ... range` statement visits the entries of a
map.  Go leaves it unspecified and the runtime varies it from one loop to the
next; it is an input of the handlers. -/
abbrev MapOrder := GoMap → GoMap

/-- A visiting order visits every entry of the map exactly once. -/
def MapOrder.Valid (order : MapOrder) : Prop :=
  ∀ m : GoMap, (order m).Perm m

/-- The loop of `handleOpcode83` over the visited entries, `i` counting them:
the value visited when `i` is 2, or the nil interface when the loop ends
before. -/
def videoURLLoop : List (String × GoVal) → Nat → GoVal
  | [], _ => GoVal.null
  | (_, v) :: rest, i => if i = 2 then v else videoURLLoop rest (i + 1)

/-- The handler `handleOpcode83`; `order` is the visiting order of its
`range payload`. -/
def handleOpcode83 (order : MapOrder) (h : Handled) (jsonData : GoMap) : Handled :=
  let payload := (jsonData.get "payload").asMap
  let videoURL := videoURLLoop (order payload) 0
  let downloadInfo : GoMap :=
    [("opcode", GoVal.int 83),
     ("type", GoVal.str "download_link"),
     ("EXTERNAL", payload.get "EXTERNAL"),
     ("video_url", videoURL),
     ("raw", GoVal.obj payload)]
  push h downloadInfo

/-- The handler `handleOpcode87`. -/
def handleOpcode87 (h : Handled) (jsonData : GoMap) : Handled :=
  let payload := (jsonData.get "payload").asMap
  let info := (payload.get "info").asSlice
  match info with
  | first :: _ =>
    let infoMap := first.asMap
    let urlFrom87 : GoMap :=
      [("opcode", GoVal.int 87),
       ("type", GoVal.str "url_upload"),
       ("url", infoMap.get "url"),
       ("token", infoMap.get "token"),
       ("fileId", infoMap.get "fileId")]
    push h urlFrom87
  | [] => h

/-- The dispatcher `handleMessage`, called by the read loop on the client
`c`: the `opcode` must be a `float64`; the switch is on its conversion to
`int`.  The result tells how far the handler runs. -/
def handleMessage (order : MapOrder) (c : ChatClient) (jsonData : GoMap) : Handled :=
  let h : Handled := { client := c, pending := [] }
  match jsonData.get "opcode" with
  | GoVal.float opcode =>
    if goInt opcode = 128 then handleOpcode128 h jsonData
    else if goInt opcode = 83 then handleOpcode83 order h jsonData
    else if goInt opcode = 87 then handleOpcode87 h jsonData
    else h
  | _ => h

/-! ## Reading a decoded frame -/

/-- The opcode `handleMessage` switches on: `int(opcode)` when the `opcode`
field is a `float64`, nothing otherwise. -/
def frameOpcode (jsonData : GoMap) : Option Int :=
  match jsonData.get "opcode" with
  | GoVal.float opcode => some (goInt opcode)
  | _ => none

/-- The `payload` of a frame, as the handlers read it. -/
def framePayload (jsonData : GoMap) : GoMap :=
  (jsonData.get "payload").asMap

/-- The `payload.message` of a frame, as `handleOpcode128` reads it. -/
def frameMessage (jsonData : GoMap) : GoMap :=
  ((framePayload jsonData).get "message").asMap

/-- The message text of a frame, as `handleOpcode128` reads it. -/
def frameText (jsonData : GoMap) : String :=
  ((frameMessage jsonData).get "text").asString

/-- The attachments of a frame, as `handleOpcode128` reads them. -/
def frameAttaches (jsonData : GoMap) : List GoVal :=
  ((frameMessage jsonData).get "attaches").asSlice

/-- The elements of a frame, as `handleOpcode128` reads them. -/
def frameElements (jsonData : GoMap) : List GoVal :=
  ((frameMessage jsonData).get "elements").asSlice

/-- The `_type` of an attachment, as the loop of `handleOpcode128` reads it. -/
def attachType (attach : GoVal) : String :=
  (attach.asMap.get "_type").asString

/-- The four attachment types the switch of `handleOpcode128` has a case for. -/
def knownAttachType (attach : GoVal) : Bool :=
  decide (attachType attach ∈ ["PHOTO", "VIDEO", "FILE", "SHARE"])

/-- The events the loop body of `handleOpcode128` sends for one attachment of
the frame: what `handleAttach` adds to an empty mailbox. -/
def attachEvents (jsonData : GoMap) (attach : GoVal) : List GoMap :=
  (handleAttach { client := NewChatClient "" "" [], pending := [] } attach
    ((framePayload jsonData).get "chatId") ((frameMessage jsonData).get "sender")
    (frameText jsonData) (frameMessage jsonData) (framePayload jsonData)).client.messages

/-- The event type the specification gives for an attachment of type `t` in a
message with text `text`: `PHOTO` gives photo, `VIDEO` gives video, both in
the with-text variant when the text is non-empty, `FILE` gives file, `SHARE`
gives link. -/
def specEventType (t : String) (text : String) : String :=
  if t = "PHOTO" then (if text ≠ "" then "photo_with_text" else "photo")
  else if t = "VIDEO" then (if text ≠ "" then "video_with_text" else "video")
  else if t = "FILE" then "file"
  else "link"

/-- A new-message frame as the decoder delivers it, for the examples: chat 77,
sender 42, message `m1` that follows `m0`, with the given `opcode` value, text,
attachments and elements. -/
def exampleFrame (opcode : GoVal) (text : String) (attaches elements : List GoVal) : GoMap :=
  [("ver", GoVal.float 11), ("cmd", GoVal.float 0), ("seq", GoVal.float 5),
   ("opcode", opcode),
   ("payload", GoVal.obj
     [("chatId", GoVal.float 77),
      ("message", GoVal.obj
        [("sender", GoVal.float 42), ("id", GoVal.str "m1"), ("time", GoVal.float 1000),
         ("type", GoVal.str "USER"), ("text", GoVal.str text),
         ("attaches", GoVal.arr attaches), ("elements", GoVal.arr elements)]),
      ("prevMessageId", GoVal.str "m0")])]

/-- An attachment of the given `_type` with an identifier, for the examples. -/
def exampleAttach (type : String) (key id : String) : GoVal :=
  GoVal.obj [("_type", GoVal.str type), (key, GoVal.str id)]

/-- A frame with the given `opcode` value and payload, for the examples. -/
def examplePayloadFrame (opcode : GoVal) (payload : GoMap) : GoMap :=
  [("ver", GoVal.float 11), ("cmd", GoVal.float 0), ("seq", GoVal.float 5),
   ("opcode", opcode), ("payload", GoVal.obj payload)]

/-- A client with default options right after the dial of `Connect` has
succeeded (`c.ws = ws; c.running = true`): the socket is set, the session is
running, nothing has been written yet. -/
def connectedClient : ChatClient :=
  { NewChatClient "token" "device" [] with ws := some { closed := false }, running := true }

/-- The point a handler reaches that starts running on the client `c` and
sends the events `evs` in order: the events that fit in the free slots of the
buffer are appended; when not all fit, the handler is suspended with the rest
pending. -/
def afterSends (c : ChatClient) (evs : List GoMap) : Handled :=
  { client := { c with
      messages := c.messages ++ evs.take (mailboxCapacity - c.messages.length) },
    pending := evs.drop (mailboxCapacity - c.messages.length) }

/-- A client like `connectedClient` whose mailbox holds `mailboxCapacity`
events, none of them received yet. -/
def fullClient : ChatClient :=
  { connectedClient with
    messages := List.replicate mailboxCapacity [("type", GoVal.str "text")] }

/-! ## Connecting -/

/-- The method `sendHandshake`. -/
def sendHandshake (c : ChatClient) : Except Fault ChatClient :=
  let c := { c with seq := c.seq + 1 }
  let payload : GoMap :=
    [("ver", GoVal.int 11), ("cmd", GoVal.int 0), ("seq", GoVal.int c.seq),
     ("opcode", GoVal.int 19),
     ("payload", GoVal.obj
       [("interactive", GoVal.bool true),
        ("token", GoVal.str c.Token),
        ("chatsCount", GoVal.int c.WatchChats.length),
        ("chatsSync", GoVal.int 0),
        ("contactsSync", GoVal.int 0),
        ("presenceSync", GoVal.int 0),
        ("draftsSync", GoVal.int 0)])]
  send c payload "Handshake"

/-- The method `sendInfo`, which ends by calling `sendHandshake`. -/
def sendInfo (c : ChatClient) : Except Fault ChatClient :=
  let c := { c with seq := c.seq + 1 }
  let payload : GoMap :=
    [("ver", GoVal.int 11), ("cmd", GoVal.int 0), ("seq", GoVal.int c.seq),
     ("opcode", GoVal.int 6),
     ("payload", GoVal.obj
       [("userAgent", GoVal.obj
          [("deviceType", GoVal.str "WEB"),
           ("locale", GoVal.str "ru"),
           ("deviceLocale", GoVal.str "ru"),
           ("osVersion", GoVal.str c.OSVersion),
           ("deviceName", GoVal.str c.DeviceName),
           ("headerUserAgent", GoVal.str c.HeaderUserAgent),
           ("appVersion", GoVal.str "25.11.1"),
           ("screen", GoVal.str "1080x1920 1.0x"),
           ("timezone", GoVal.str "Asia/Yekaterinburg")]),
        ("deviceId", GoVal.str c.DeviceID)])]
  match send c payload "Info" with
  | Except.error f => Except.error f
  | Except.ok c => sendHandshake c

/-- The method `Connect`.  `dial` is the outcome of `dialer.Dial`: the new
socket, or the text of its error.  The result pairs the client with the
returned `error` (`none` for nil).  On success the read loop is started as a
goroutine of its own (`listenHandler` below) and `sendInfo` runs. -/
def Connect (c : ChatClient) (dial : Except String Conn) :
    Except Fault (ChatClient × Option String) :=
  match dial with
  | Except.error err => Except.ok (c, some ("connection error: " ++ err))
  | Except.ok ws =>
    let c := { c with ws := some ws, running := true }
    match sendInfo c with
    | Except.error f => Except.error f
    | Except.ok c => Except.ok (c, none)

/-! ## The opcode table of the specification -/

/-- The outbound command kinds the specification names. -/
inductive CommandKind where
  | Info
  | Handshake
  | Ping
  | SendMessage
  | SendFile
  | SubscribeChat
  | FetchVideoUrl
  | RequestUploadUrl
  | ReadMarker
  deriving DecidableEq, Repr

/-- The outbound opcode table of the specification: 6 = Info, 19 = Handshake,
1 = Ping, 64 = SendMessage and SendFile, 75 = SubscribeChat,
83 = FetchVideoUrl, 87 = RequestUploadUrl, 177 = ReadMarker. -/
def specOpcode : CommandKind → Int
  | CommandKind.Info => 6
  | CommandKind.Handshake => 19
  | CommandKind.Ping => 1
  | CommandKind.SendMessage => 64
  | CommandKind.SendFile => 64
  | CommandKind.SubscribeChat => 75
  | CommandKind.FetchVideoUrl => 83
  | CommandKind.RequestUploadUrl => 87
  | CommandKind.ReadMarker => 177

/-- The kinds of envelope a command call builds, in order, on a client in
state `c`: a `SendMessage` call builds the message and then the read marker; a
keepalive tick builds a ping only while the client is running. -/
def Command.kinds (c : ChatClient) : Command → List CommandKind
  | Command.sendMessage _ _ _ => [CommandKind.SendMessage, CommandKind.ReadMarker]
  | Command.sendFile _ _ _ => [CommandKind.SendFile]
  | Command.subscribeChat _ => [CommandKind.SubscribeChat]
  | Command.getVideoURL _ _ _ => [CommandKind.FetchVideoUrl]
  | Command.requestURLToSendFile _ => [CommandKind.RequestUploadUrl]
  | Command.ping => if c.running then [CommandKind.Ping] else []
/-! ## The read loop -/

/-- The outcome of one `c.ws.ReadMessage()` in the read loop: a message that
`json.Unmarshal` decodes to `jsonData`, a message that does not decode, the
close error with code `CloseNormalClosure`, or any other read error (a forced
closure of the socket). -/
inductive ReadResult where
  | frame (jsonData : GoMap)
  | malformed
  | closeNormal
  | readError

/-- The loop `for c.running` of `listenHandler` over the successive read
outcomes: the client when the loop is left, `none` when the outcomes are used
up while the loop still waits in `ReadMessage`, or when a handler is
suspended in a send on the full mailbox. -/
def listenLoop (order : MapOrder) : ChatClient → List ReadResult → Option ChatClient
  | c, [] => if c.running then none else some c
  | c, r :: rest =>
    if !c.running then some c
    else
      match r with
      | ReadResult.frame jsonData =>
        if (handleMessage order c jsonData).pending.length = 0 then
          listenLoop order (handleMessage order c jsonData).client rest
        else none
      | ReadResult.malformed => listenLoop order c rest
      | ReadResult.closeNormal => some c
      | ReadResult.readError => some c

/-- The goroutine `listenHandler`: the loop, then the deferred `c.Stop()`.
`none` while the goroutine still waits. -/
def listenHandler (order : MapOrder) (c : ChatClient) (reads : List ReadResult) :
    Option (Except Fault ChatClient) :=
  match listenLoop order c reads with
  | none => none
  | some c => some (Stop c)

/-! ## The mailbox -/

/-- The send `c.messages <- ev` when it completes at once: `none` when the
buffer is full and the sender is suspended. -/
def trySend (c : ChatClient) (ev : GoMap) : Option ChatClient :=
  if c.messages.length < mailboxCapacity then
    some { c with messages := c.messages ++ [ev] }
  else none

/-- Sends the events one after another, none of the sends being suspended. -/
def sendAll : ChatClient → List GoMap → Option ChatClient
  | c, [] => some c
  | c, ev :: rest =>
    match trySend c ev with
    | none => none
    | some c => sendAll c rest

/-- The method `GetMessage`: the non-blocking receive; `(nil, false)` when the
channel is empty. -/
def GetMessage (c : ChatClient) : (GoMap × Bool) × ChatClient :=
  match c.messages with
  | msg :: rest => ((msg, true), { c with messages := rest })
  | [] => (([], false), c)

/-- The method `GetMessageBlocking`: `none` while the caller is suspended on
the empty channel. -/
def GetMessageBlocking (c : ChatClient) : Option (GoMap × ChatClient) :=
  match c.messages with
  | msg :: rest => some (msg, { c with messages := rest })
  | [] => none

/-- The results of `n` successive `GetMessage` calls, with the client after
them. -/
def getMessages : ChatClient → Nat → List (GoMap × Bool) × ChatClient
  | c, 0 => ([], c)
  | c, n + 1 =>
    let r := GetMessage c
    let rs := getMessages r.2 n
    (r.1 :: rs.1, rs.2)

/-! ## Two goroutines calling commands -/

/-- The statements of `SubscribeChat` between which another goroutine can
run: the increment `c.seq++`, which is outside the mutex, and the rest of the
call, which builds the envelope from the current `c.seq` and calls `send`
(taken here as one step, `send` holding the mutex). -/
inductive Stmt where
  | incSeq
  | subscribeSend (chatID : GoVal)

/-- Executes one statement. -/
def Stmt.exec (c : ChatClient) : Stmt → Except Fault ChatClient
  | Stmt.incSeq => Except.ok { c with seq := c.seq + 1 }
  | Stmt.subscribeSend chatID =>
    let payload : GoMap :=
      [("ver", GoVal.int 11), ("cmd", GoVal.int 0), ("seq", GoVal.int c.seq),
       ("opcode", GoVal.int 75),
       ("payload", GoVal.obj [("chatId", chatID), ("subscribe", GoVal.bool true)])]
    send c payload "Subscribe chat"

/-- The statements of one `SubscribeChat(chatID)` call, in program order. -/
def subscribeChatStmts (chatID : GoVal) : List Stmt :=
  [Stmt.incSeq, Stmt.subscribeSend chatID]

/-- Runs the statements of one goroutine in order. -/
def runStmts : ChatClient → List Stmt → Except Fault ChatClient
  | c, [] => Except.ok c
  | c, s :: rest =>
    match s.exec c with
    | Except.error f => Except.error f
    | Except.ok c => runStmts c rest

/-- Runs two goroutines under a schedule: each entry says which goroutine
executes its next statement (`false` the first, `true` the second); when the
schedule ends or one goroutine is done, the rest runs in order. -/
def runInterleaved : ChatClient → List Stmt → List Stmt → List Bool → Except Fault ChatClient
  | c, p, q, [] =>
    match runStmts c p with
    | Except.error f => Except.error f
    | Except.ok c => runStmts c q
  | c, [], q, _ :: _ => runStmts c q
  | c, p, [], _ :: _ => runStmts c p
  | c, s :: p, t :: q, b :: schedule =>
    if b then
      match t.exec c with
      | Except.error f => Except.error f
      | Except.ok c => runInterleaved c (s :: p) q schedule
    else
      match s.exec c with
      | Except.error f => Except.error f
      | Except.ok c => runInterleaved c p (t :: q) schedule

/-! ## The upload routine of the example driver -/

/-- What the outside gives to one `uploadFile` call: the error, if any, of
`os.Open`, `writer.CreateFormFile`, `io.Copy`, `writer.Close`,
`http.NewRequest` and `client.Do`, the status code of the response and the
text `io.ReadAll` reads from its body. -/
structure UploadEnv where
  openErr : Option String
  createFormErr : Option String
  copyErr : Option String
  closeErr : Option String
  newRequestErr : Option String
  doErr : Option String
  statusCode : Int
  body : String

/-- The function `uploadFile` of `example.go`: the returned `error`, `none`
for nil.  `http.StatusOK` is 200 and `http.StatusCreated` is 201. -/
def uploadFile (env : UploadEnv) (url filePath token : String) : Option String :=
  match env.openErr with
  | some err => some ("failed to open file: " ++ err)
  | none =>
  match env.createFormErr with
  | some err => some ("failed to create form file: " ++ err)
  | none =>
  match env.copyErr with
  | some err => some ("failed to copy file content: " ++ err)
  | none =>
  match env.closeErr with
  | some err => some ("failed to close writer: " ++ err)
  | none =>
  match env.newRequestErr with
  | some err => some ("failed to create request: " ++ err)
  | none =>
  match env.doErr with
  | some err => some ("failed to send request: " ++ err)
  | none =>
    if env.statusCode ≠ 200 ∧ env.statusCode ≠ 201 then
      some ("upload failed with status " ++ toString env.statusCode ++ ": " ++ env.body)
    else none

/-- An `uploadFile` call in which every step up to the response succeeds and
the server answers with the given status and body. -/
def respondingEnv (statusCode : Int) (body : String) : UploadEnv :=
  { openErr := none, createFormErr := none, copyErr := none, closeErr := none,
    newRequestErr := none, doErr := none, statusCode := statusCode, body := body }

/-- The event types the specification lists for the frames the engine
handles. -/
def specEventTypes : List String :=
  ["text", "photo", "photo_with_text", "video", "video_with_text", "file", "link",
   "download_link", "url_upload"]

/-- The events `handleMessage` sends for a frame, in order: those it adds to
an empty mailbox, followed by those that wait when the frame has more events
than the mailbox has room for. -/
def frameEvents (order : MapOrder) (jsonData : GoMap) : List GoMap :=
  (handleMessage order (NewChatClient "" "" []) jsonData).client.messages ++
    (handleMessage order (NewChatClient "" "" []) jsonData).pending

/-! ## The state a call leaves behind -/

/-- How a call ends: `fault = none` when it returns, `some f` when it panics.
In both cases `state` is the client as the call leaves it: a panic unwinds the
stack and keeps the assignments made before it. -/
structure Outcome where
  state : ChatClient
  fault : Option Fault

/-- The outcome as a result that forgets the state of a panic. -/
def Outcome.toExcept (o : Outcome) : Except Fault ChatClient :=
  match o.fault with
  | none => Except.ok o.state
  | some f => Except.error f

/-- The method `Stop`, with the state it leaves: `running` is cleared before
`close(c.stopChan)` can panic. -/
def stopOutcome (c : ChatClient) : Outcome :=
  let c := { c with running := false }
  if c.stopChanClosed then { state := c, fault := some Fault.closeOfClosedChannel }
  else
    let c := { c with stopChanClosed := true }
    match c.ws with
    | some conn => { state := { c with ws := some { conn with closed := true } }, fault := none }
    | none => { state := c, fault := none }

/-- The method `send`, with the state it leaves. -/
def sendOutcome (c : ChatClient) (data : GoMap) (sendType : String) : Outcome :=
  match c.ws with
  | none =>
    let o := stopOutcome c
    match o.fault with
    | some f => o
    | none =>
      if o.state.allowReconnect then
        { state := { o.state with reconnects := o.state.reconnects + 1 }, fault := none }
      else o
  | some _ =>
    if !(GoVal.obj data).encodable then { state := c, fault := none }
    else { state := { c with written := c.written ++ [data] }, fault := none }

/-- The method `SendMessage`, with the state it leaves. -/
def sendMessageOutcome (c : ChatClient) (chatID : GoVal) (text : String) (now : Int) : Outcome :=
  let c := { c with seq := c.seq + 1 }
  let payload : GoMap :=
    [("ver", GoVal.int 11), ("cmd", GoVal.int 0), ("seq", GoVal.int c.seq),
     ("opcode", GoVal.int 64),
     ("payload", GoVal.obj
       [("chatId", chatID),
        ("message", GoVal.obj [("text", GoVal.str text), ("cid", GoVal.int now),
           ("elements", GoVal.arr []), ("attaches", GoVal.arr [])]),
        ("notify", GoVal.bool true)])]
  let o := sendOutcome c payload "Message"
  match o.fault with
  | some f => o
  | none =>
    let c := { o.state with seq := o.state.seq + 1 }
    let payload1 : GoMap :=
      [("ver", GoVal.int 11), ("cmd", GoVal.int 0), ("seq", GoVal.int c.seq),
       ("opcode", GoVal.int 177),
       ("payload", GoVal.obj [("chatId", chatID), ("time", GoVal.int 0)])]
    sendOutcome c payload1 ""

/-- The method `GetVideoURL`, with the state it leaves. -/
def getVideoURLOutcome (c : ChatClient) (videoID chatID messageID : GoVal) : Outcome :=
  let c := { c with seq := c.seq + 1 }
  let payload : GoMap :=
    [("ver", GoVal.int 11), ("cmd", GoVal.int 0), ("seq", GoVal.int c.seq),
     ("opcode", GoVal.int 83),
     ("payload", GoVal.obj
       [("videoId", videoID), ("chatId", chatID), ("messageId", messageID)])]
  sendOutcome c payload "Get video URL"

/-- The method `SubscribeChat`, with the state it leaves. -/
def subscribeChatOutcome (c : ChatClient) (chatID : GoVal) : Outcome :=
  let c := { c with seq := c.seq + 1 }
  let payload : GoMap :=
    [("ver", GoVal.int 11), ("cmd", GoVal.int 0), ("seq", GoVal.int c.seq),
     ("opcode", GoVal.int 75),
     ("payload", GoVal.obj [("chatId", chatID), ("subscribe", GoVal.bool true)])]
  sendOutcome c payload "Subscribe chat"

/-- The method `RequestURLToSendFile`, with the state it leaves. -/
def requestURLToSendFileOutcome (c : ChatClient) (count : Int) : Outcome :=
  let c := { c with seq := c.seq + 1 }
  let payload : GoMap :=
    [("ver", GoVal.int 11), ("cmd", GoVal.int 0), ("seq", GoVal.int c.seq),
     ("opcode", GoVal.int 87),
     ("payload", GoVal.obj [("count", GoVal.int count)])]
  sendOutcome c payload "Request URL to send file"

/-- The method `SendFile`, with the state it leaves. -/
def sendFileOutcome (c : ChatClient) (chatID fileID : GoVal) (now : Int) : Outcome :=
  let c := { c with seq := c.seq + 1 }
  let payload : GoMap :=
    [("ver", GoVal.int 11), ("cmd", GoVal.int 0), ("seq", GoVal.int c.seq),
     ("opcode", GoVal.int 64),
     ("payload", GoVal.obj
       [("chatId", chatID),
        ("message", GoVal.obj [("cid", GoVal.int now),
           ("attaches", GoVal.arr
             [GoVal.obj [("_type", GoVal.str "FILE"), ("fileId", fileID)]])]),
        ("notify", GoVal.bool true)])]
  sendOutcome c payload "File"

/-- One tick of the keepalive ticker, with the state it leaves. -/
def keepaliveTickOutcome (c : ChatClient) : Outcome :=
  if !c.running then { state := c, fault := none }
  else
    let c := { c with seq := c.seq + 1 }
    let pingPayload : GoMap :=
      [("ver", GoVal.int 11), ("cmd", GoVal.int 0), ("seq", GoVal.int c.seq),
       ("opcode", GoVal.int 1),
       ("payload", GoVal.obj [("interactive", GoVal.bool false)])]
    sendOutcome c pingPayload ""

/-- One command call, with the state it leaves. -/
def Command.outcome (c : ChatClient) : Command → Outcome
  | Command.sendMessage chatID text now => sendMessageOutcome c chatID text now
  | Command.sendFile chatID fileID now => sendFileOutcome c chatID fileID now
  | Command.subscribeChat chatID => subscribeChatOutcome c chatID
  | Command.getVideoURL videoID chatID messageID => getVideoURLOutcome c videoID chatID messageID
  | Command.requestURLToSendFile count => requestURLToSendFileOutcome c count
  | Command.ping => keepaliveTickOutcome c

/-- The method `sendHandshake`, with the state it leaves. -/
def sendHandshakeOutcome (c : ChatClient) : Outcome :=
  let c := { c with seq := c.seq + 1 }
  let payload : GoMap :=
    [("ver", GoVal.int 11), ("cmd", GoVal.int 0), ("seq", GoVal.int c.seq),
     ("opcode", GoVal.int 19),
     ("payload", GoVal.obj
       [("interactive", GoVal.bool true),
        ("token", GoVal.str c.Token),
        ("chatsCount", GoVal.int c.WatchChats.length),
        ("chatsSync", GoVal.int 0),
        ("contactsSync", GoVal.int 0),
        ("presenceSync", GoVal.int 0),
        ("draftsSync", GoVal.int 0)])]
  sendOutcome c payload "Handshake"

/-- The method `sendInfo`, with the state it leaves. -/
def sendInfoOutcome (c : ChatClient) : Outcome :=
  let c := { c with seq := c.seq + 1 }
  let payload : GoMap :=
    [("ver", GoVal.int 11), ("cmd", GoVal.int 0), ("seq", GoVal.int c.seq),
     ("opcode", GoVal.int 6),
     ("payload", GoVal.obj
       [("userAgent", GoVal.obj
          [("deviceType", GoVal.str "WEB"),
           ("locale", GoVal.str "ru"),
           ("deviceLocale", GoVal.str "ru"),
           ("osVersion", GoVal.str c.OSVersion),
           ("deviceName", GoVal.str c.DeviceName),
           ("headerUserAgent", GoVal.str c.HeaderUserAgent),
           ("appVersion", GoVal.str "25.11.1"),
           ("screen", GoVal.str "1080x1920 1.0x"),
           ("timezone", GoVal.str "Asia/Yekaterinburg")]),
        ("deviceId", GoVal.str c.DeviceID)])]
  let o := sendOutcome c payload "Info"
  match o.fault with
  | some f => o
  | none => sendHandshakeOutcome o.state

/-- The method `Connect`, with the state it leaves (the returned `error` is
left out; see `Connect`). -/
def connectOutcome (c : ChatClient) (dial : Except String Conn) : Outcome :=
  match dial with
  | Except.error err => { state := c, fault := none }
  | Except.ok ws => sendInfoOutcome { c with ws := some ws, running := true }

/-- One step in the life of a client: a command call, a `Stop`, a `Connect`
with the outcome of its dial, or an inbound frame handled by the read
loop. -/
inductive ClientOp where
  | command (cmd : Command)
  | stop
  | connect (dial : Except String Conn)
  | handle (order : MapOrder) (jsonData : GoMap)

/-- The outcome of one step. -/
def ClientOp.outcome (c : ChatClient) : ClientOp → Outcome
  | ClientOp.command cmd => cmd.outcome c
  | ClientOp.stop => stopOutcome c
  | ClientOp.connect dial => connectOutcome c dial
  | ClientOp.handle order jsonData =>
    { state := (handleMessage order c jsonData).client, fault := none }

/-- The client after a sequence of steps, each starting from the state the
one before left, whether it returned or panicked (a panic that is recovered;
the state at an unrecovered panic is the state after a shorter sequence). -/
def clientLife : ChatClient → List ClientOp → ChatClient
  | c, [] => c
  | c, op :: rest => clientLife (op.outcome c).state rest

/-! ## Lemmas on `send` and on single command calls -/

theorem send_connected (c : ChatClient) (data : GoMap) (sendType : String)
    (hws : c.ws.isSome = true) (henc : (GoVal.obj data).encodable = true) :
    send c data sendType = Except.ok { c with written := c.written ++ [data] } := by
  unfold send
  cases h : c.ws with
  | none => simp [h] at hws
  | some conn => simp [henc]

/-- What one command call on a client with a socket does when its arguments
can be encoded: it writes `out`, numbered from `c.seq + 1` on. -/
theorem run_connected (c : ChatClient) (cmd : Command)
    (hws : c.ws.isSome = true) (henc : cmd.encodable = true) :
    ∃ c2 out, cmd.run c = Except.ok c2 ∧ c2.ws = c.ws ∧
      c2.written = c.written ++ out ∧ c2.seq = c.seq + (out.length : Int) ∧
      out.map seqOf =
        (List.range out.length).map (fun (i : Nat) => some (c.seq + 1 + (i : Int))) := by
  cases cmd with
  | sendMessage chatID text now =>
    simp only [Command.encodable] at henc
    simp only [Command.run, SendMessage]
    rw [send_connected _ _ _ (by simpa using hws)
      (by simp [GoVal.encodable, GoVal.encodableFields, GoVal.encodableList, henc])]
    simp only []
    rw [send_connected _ _ _ (by simpa using hws)
      (by simp [GoVal.encodable, GoVal.encodableFields, henc])]
    simp [seqOf, GoMap.get, List.lookup, List.range_succ]
    ring
  | sendFile chatID fileID now =>
    simp only [Command.encodable, Bool.and_eq_true] at henc
    simp only [Command.run, SendFile]
    rw [send_connected _ _ _ (by simpa using hws)
      (by simp [GoVal.encodable, GoVal.encodableFields, GoVal.encodableList, henc])]
    simp [seqOf, GoMap.get, List.lookup, List.range_succ]
  | subscribeChat chatID =>
    simp only [Command.encodable] at henc
    simp only [Command.run, SubscribeChat]
    rw [send_connected _ _ _ (by simpa using hws)
      (by simp [GoVal.encodable, GoVal.encodableFields, henc])]
    simp [seqOf, GoMap.get, List.lookup, List.range_succ]
  | getVideoURL videoID chatID messageID =>
    simp only [Command.encodable, Bool.and_eq_true] at henc
    simp only [Command.run, GetVideoURL]
    rw [send_connected _ _ _ (by simpa using hws)
      (by simp [GoVal.encodable, GoVal.encodableFields, henc])]
    simp [seqOf, GoMap.get, List.lookup, List.range_succ]
  | requestURLToSendFile count =>
    simp only [Command.run, RequestURLToSendFile]
    rw [send_connected _ _ _ (by simpa using hws)
      (by simp [GoVal.encodable, GoVal.encodableFields])]
    simp [seqOf, GoMap.get, List.lookup, List.range_succ]
  | ping =>
    simp only [Command.run, keepaliveTick]
    by_cases hr : c.running = true
    · simp only [hr, Bool.not_true, Bool.false_eq_true, if_false]
      rw [send_connected _ _ _ (by simpa using hws)
        (by simp [GoVal.encodable, GoVal.encodableFields])]
      simp [seqOf, GoMap.get, List.lookup, List.range_succ]
    · simp only [hr, Bool.not_eq_true] at *
      refine ⟨c, [], ?_, rfl, by simp, by simp, by simp⟩
      simp [hr]

/-! ## Outbound sequence numbers (C1) -/

/-- C1, counterexample: on a connected client with `seq = 0`, three
`SubscribeChat` calls of which the second has a chat id that cannot be encoded
hand two envelopes to the transport, with `seq` 1 and 3: the number 2 is
skipped. -/
theorem seq_gap_after_unencodable_argument :
    ∃ c2, runCommands connectedClient
        [Command.subscribeChat (GoVal.int 1), Command.subscribeChat GoVal.unsupported,
         Command.subscribeChat (GoVal.int 1)] = Except.ok c2 ∧
      connectedClient.ws.isSome = true ∧ connectedClient.written = [] ∧
      c2.written.map seqOf = [some 1, some 3] :=
  ⟨_, rfl, rfl, rfl, rfl⟩

/-- C1, amended: for every sequence of outbound command calls whose arguments
can be JSON-encoded, made one after another on a client that has a socket, the
run ends without fault, and the envelopes it hands to the transport carry, in
write order, the `seq` values `c.seq + 1, c.seq + 2, ...`, each one more than
the one before; the counter ends at the last value written. -/
theorem seq_consecutive_of_encodable (c : ChatClient) (cmds : List Command)
    (hws : c.ws.isSome = true) (henc : ∀ cmd ∈ cmds, Command.encodable cmd = true) :
    ∃ c2 out, runCommands c cmds = Except.ok c2 ∧
      c2.written = c.written ++ out ∧ c2.seq = c.seq + (out.length : Int) ∧
      out.map seqOf =
        (List.range out.length).map (fun (i : Nat) => some (c.seq + 1 + (i : Int))) := by
  induction cmds generalizing c with
  | nil => exact ⟨c, [], rfl, by simp, by simp, by simp⟩
  | cons cmd rest ih =>
    obtain ⟨c1, out1, hrun, hws1, hw1, hs1, hn1⟩ :=
      run_connected c cmd hws (henc cmd (List.mem_cons_self _ _))
    obtain ⟨c2, out2, hrun2, hw2, hs2, hn2⟩ :=
      ih c1 (by rw [hws1]; exact hws) (fun x hx => henc x (List.mem_cons_of_mem _ hx))
    refine ⟨c2, out1 ++ out2, ?_, ?_, ?_, ?_⟩
    · simp [runCommands, hrun, hrun2]
    · rw [hw2, hw1, List.append_assoc]
    · rw [hs2, hs1]; push_cast [List.length_append]; ring
    · rw [List.map_append, hn1, hn2, List.length_append, List.range_add, List.map_append,
        List.map_map]
      congr 1
      apply List.map_congr_left
      intro i _
      simp only [Function.comp, hs1]
      congr 1
      push_cast
      ring

/-- C1, witness: a `SendMessage` (two envelopes), a ping and a `SendFile` on a
connected client. -/
theorem seq_consecutive_of_encodable_witness :
    connectedClient.ws.isSome = true ∧
    ∃ c2 out, runCommands connectedClient
        [Command.sendMessage (GoVal.int 123456) "Hello" 0, Command.ping,
         Command.sendFile (GoVal.int 123456) (GoVal.int 7) 0] = Except.ok c2 ∧
      c2.written = connectedClient.written ++ out ∧
      c2.seq = connectedClient.seq + (out.length : Int) ∧
      out.map seqOf =
        (List.range out.length).map
          (fun (i : Nat) => some (connectedClient.seq + 1 + (i : Int))) :=
  ⟨rfl, seq_consecutive_of_encodable connectedClient _ rfl (by decide)⟩

/-! ## Lemmas on the dispatcher and on the sends of a handler -/

theorem handleMessage_of_opcode_128 (order : MapOrder) (c : ChatClient) (jsonData : GoMap)
    (h : frameOpcode jsonData = some 128) :
    handleMessage order c jsonData =
      handleOpcode128 { client := c, pending := [] } jsonData := by
  unfold frameOpcode at h
  unfold handleMessage
  simp only []
  split at h
  · rename_i q hq
    simp only [Option.some.injEq] at h
    simp [hq, h]
  · simp at h

theorem handleMessage_of_opcode_83 (order : MapOrder) (c : ChatClient) (jsonData : GoMap)
    (h : frameOpcode jsonData = some 83) :
    handleMessage order c jsonData =
      handleOpcode83 order { client := c, pending := [] } jsonData := by
  unfold frameOpcode at h
  unfold handleMessage
  simp only []
  split at h
  · rename_i q hq
    simp only [Option.some.injEq] at h
    simp [hq, h]
  · simp at h

theorem handleMessage_of_opcode_87 (order : MapOrder) (c : ChatClient) (jsonData : GoMap)
    (h : frameOpcode jsonData = some 87) :
    handleMessage order c jsonData =
      handleOpcode87 { client := c, pending := [] } jsonData := by
  unfold frameOpcode at h
  unfold handleMessage
  simp only []
  split at h
  · rename_i q hq
    simp only [Option.some.injEq] at h
    simp [hq, h]
  · simp at h

theorem handleMessage_of_other_opcode (order : MapOrder) (c : ChatClient) (jsonData : GoMap)
    (h : ∀ n, frameOpcode jsonData = some n → n ≠ 128 ∧ n ≠ 83 ∧ n ≠ 87) :
    handleMessage order c jsonData = { client := c, pending := [] } := by
  unfold frameOpcode at h
  unfold handleMessage
  simp only []
  split
  · rename_i q hq
    rw [hq] at h
    obtain ⟨h1, h2, h3⟩ := h (goInt q) rfl
    simp [h1, h2, h3]
  · rfl

/-- Once a handler is suspended, its further sends wait behind the first. -/
theorem foldl_push_of_pending (evs : List GoMap) (h : Handled) (hp : h.pending.length ≠ 0) :
    evs.foldl push h = { h with pending := h.pending ++ evs } := by
  induction evs generalizing h with
  | nil => simp
  | cons ev rest ih =>
    have hpush : push h ev = { h with pending := h.pending ++ [ev] } := by
      simp [push, hp]
    rw [List.foldl_cons, hpush, ih _ (by simp)]
    simp

/-- The sends of a running handler, one after another, fill the free slots of
the buffer and leave the rest pending. -/
theorem foldl_push_eq_afterSends (evs : List GoMap) (c : ChatClient) :
    evs.foldl push { client := c, pending := [] } = afterSends c evs := by
  induction evs generalizing c with
  | nil => simp [afterSends]
  | cons ev rest ih =>
    by_cases hroom : c.messages.length < mailboxCapacity
    · have hpush : push { client := c, pending := [] } ev =
          { client := { c with messages := c.messages ++ [ev] }, pending := [] } := by
        simp [push, hroom]
      rw [List.foldl_cons, hpush, ih]
      have hk : mailboxCapacity - c.messages.length =
          (mailboxCapacity - (c.messages.length + 1)) + 1 := by omega
      simp only [afterSends, List.length_append, List.length_singleton]
      rw [hk]
      simp [List.append_assoc]
    · have hpush : push { client := c, pending := [] } ev =
          { client := c, pending := [ev] } := by
        simp [push, hroom]
      rw [List.foldl_cons, hpush, foldl_push_of_pending _ _ (by simp)]
      have hk : mailboxCapacity - c.messages.length = 0 := by omega
      simp [afterSends, hk]

theorem afterSends_of_room (c : ChatClient) (evs : List GoMap)
    (h : c.messages.length + evs.length ≤ mailboxCapacity) :
    afterSends c evs = { client := { c with messages := c.messages ++ evs }, pending := [] } := by
  have hk : evs.length ≤ mailboxCapacity - c.messages.length := by omega
  simp [afterSends, List.take_of_length_le hk, List.drop_of_length_le hk]

theorem afterSends_of_full (c : ChatClient) (evs : List GoMap)
    (h : mailboxCapacity ≤ c.messages.length) :
    afterSends c evs = { client := c, pending := evs } := by
  have hk : mailboxCapacity - c.messages.length = 0 := by omega
  simp [afterSends, hk]

theorem afterSends_events (c : ChatClient) (evs : List GoMap) :
    ∃ pushed, (afterSends c evs).client = { c with messages := c.messages ++ pushed } ∧
      pushed ++ (afterSends c evs).pending = evs ∧
      (c.messages.length ≤ mailboxCapacity →
        (afterSends c evs).client.messages.length ≤ mailboxCapacity) := by
  refine ⟨evs.take (mailboxCapacity - c.messages.length), rfl, List.take_append_drop _ _, ?_⟩
  intro hle
  simp only [afterSends, List.length_append, List.length_take]
  omega

theorem handleAttach_eq (h : Handled) (attach chatID sender : GoVal) (text : String)
    (messageData payload : GoMap) :
    handleAttach h attach chatID sender text messageData payload =
      (handleAttach { client := NewChatClient "" "" [], pending := [] } attach chatID sender
        text messageData payload).client.messages.foldl push h := by
  unfold handleAttach
  simp only []
  split_ifs <;>
    simp [handlePhotoAttach, handleVideoAttach, handleFileAttach, handleShareAttach, push,
      NewChatClient, mailboxCapacity]

theorem foldl_handleAttach (attaches : List GoVal) (h : Handled) (chatID sender : GoVal)
    (text : String) (messageData payload : GoMap) :
    attaches.foldl
        (fun h attach => handleAttach h attach chatID sender text messageData payload) h =
      (attaches.map (fun attach =>
        (handleAttach { client := NewChatClient "" "" [], pending := [] } attach chatID sender
          text messageData payload).client.messages)).flatten.foldl push h := by
  induction attaches generalizing h with
  | nil => simp
  | cons a rest ih =>
    rw [List.foldl_cons, ih, handleAttach_eq]
    simp [List.foldl_append]

theorem handleOpcode128_attaches (c : ChatClient) (jsonData : GoMap)
    (h : frameAttaches jsonData ≠ []) :
    handleOpcode128 { client := c, pending := [] } jsonData =
      afterSends c ((frameAttaches jsonData).map (attachEvents jsonData)).flatten := by
  have hlen : (frameAttaches jsonData).length > 0 := List.length_pos.mpr h
  unfold handleOpcode128
  simp only [frameAttaches, frameMessage, framePayload] at hlen
  simp only [hlen, if_true]
  rw [foldl_handleAttach, foldl_push_eq_afterSends]
  rfl

theorem attachEvents_known (jsonData : GoMap) (attach : GoVal)
    (h : knownAttachType attach = true) :
    ∃ ev, attachEvents jsonData attach = [ev] ∧
      ev.get "type" = GoVal.str (specEventType (attachType attach) (frameText jsonData)) ∧
      ev.get "opcode" = GoVal.int 128 ∧
      ev.get "sender" = (frameMessage jsonData).get "sender" ∧
      (attachType attach = "SHARE" → ev.get "text" = GoVal.str (frameText jsonData)) := by
  simp only [knownAttachType, decide_eq_true_eq, List.mem_cons, List.mem_singleton,
    List.not_mem_nil, or_false] at h
  unfold attachEvents handleAttach
  simp only [attachType] at h ⊢
  generalize (attach.asMap.get "_type").asString = t at h ⊢
  rcases h with rfl | rfl | rfl | rfl
  · by_cases ht : frameText jsonData = "" <;>
      simp [specEventType, handlePhotoAttach, push, NewChatClient, mailboxCapacity, ht,
        GoMap.get, GoMap.set, List.lookup]
  · by_cases ht : frameText jsonData = "" <;>
      simp [specEventType, handleVideoAttach, push, NewChatClient, mailboxCapacity, ht,
        GoMap.get, GoMap.set, List.lookup]
  · simp [specEventType, handleFileAttach, push, NewChatClient, mailboxCapacity, GoMap.get,
      List.lookup]
  · simp [specEventType, handleShareAttach, push, NewChatClient, mailboxCapacity, GoMap.get,
      List.lookup]

theorem attachEvents_unknown (jsonData : GoMap) (attach : GoVal)
    (h : knownAttachType attach = false) :
    attachEvents jsonData attach = [] := by
  simp only [knownAttachType, decide_eq_false_iff_not, List.mem_cons, List.mem_singleton,
    List.not_mem_nil, or_false, not_or] at h
  unfold attachEvents handleAttach
  simp only [attachType] at h
  simp only [h.1, h.2.1, h.2.2.1, h.2.2.2, if_false]
  rfl

theorem attachEvents_length (jsonData : GoMap) (attach : GoVal) :
    (attachEvents jsonData attach).length = if knownAttachType attach then 1 else 0 := by
  cases h : knownAttachType attach with
  | true =>
    obtain ⟨ev, hev, _⟩ := attachEvents_known jsonData attach h
    simp [hev]
  | false => simp [attachEvents_unknown jsonData attach h]

theorem length_flatten_attachEvents (jsonData : GoMap) (attaches : List GoVal) :
    ((attaches.map (attachEvents jsonData)).flatten).length =
      attaches.countP knownAttachType := by
  induction attaches with
  | nil => simp
  | cons a rest ih =>
    simp only [List.map_cons, List.flatten_cons, List.length_append, ih, attachEvents_length,
      List.countP_cons]
    omega

/-! ## One event per attachment (C2) -/

/-- C2, counterexample: a new-message frame with one attachment, of `_type`
`AUDIO`, pushes no event although N = 1: the handler returns with the mailbox
as it was and nothing left to send. -/
theorem no_event_for_unknown_attachment :
    frameOpcode (exampleFrame (GoVal.float 128) "" [exampleAttach "AUDIO" "audioId" "a1"] [])
        = some 128 ∧
      (frameAttaches
        (exampleFrame (GoVal.float 128) "" [exampleAttach "AUDIO" "audioId" "a1"] [])).length
        = 1 ∧
      handleMessage id connectedClient
        (exampleFrame (GoVal.float 128) "" [exampleAttach "AUDIO" "audioId" "a1"] [])
        = { client := connectedClient, pending := [] } :=
  ⟨by decide, rfl, rfl⟩

/-- C2, amended: for every new-message frame (opcode 128) whose message
carries a list of N >= 1 attachments, handling the frame pushes exactly one
event for each attachment whose `_type` is `PHOTO`, `VIDEO`, `FILE` or `SHARE`
and none for the others, and changes nothing else; so it pushes exactly N
events when every attachment has one of the four types.  A push is the
blocking send on the mailbox of 100 slots: the events `evs` are appended in
order while there is room, all of them when they fit, and when the mailbox is
full the handler is suspended with the remaining events still to be sent; the
mailbox never grows beyond its capacity. -/
theorem events_per_known_attachment (order : MapOrder) (c : ChatClient) (jsonData : GoMap)
    (h128 : frameOpcode jsonData = some 128) (hne : frameAttaches jsonData ≠ []) :
    ∃ evs, handleMessage order c jsonData = afterSends c evs ∧
      evs.length = (frameAttaches jsonData).countP knownAttachType ∧
      ((∀ a ∈ frameAttaches jsonData, knownAttachType a = true) →
        evs.length = (frameAttaches jsonData).length) ∧
      (c.messages.length + evs.length ≤ mailboxCapacity →
        handleMessage order c jsonData =
          { client := { c with messages := c.messages ++ evs }, pending := [] }) ∧
      (c.messages.length ≤ mailboxCapacity →
        (handleMessage order c jsonData).client.messages.length ≤ mailboxCapacity) := by
  have hrun : handleMessage order c jsonData =
      afterSends c ((frameAttaches jsonData).map (attachEvents jsonData)).flatten := by
    rw [handleMessage_of_opcode_128 order c jsonData h128, handleOpcode128_attaches c jsonData hne]
  refine ⟨((frameAttaches jsonData).map (attachEvents jsonData)).flatten, hrun, ?_, ?_, ?_, ?_⟩
  · exact length_flatten_attachEvents jsonData _
  · intro hall
    rw [length_flatten_attachEvents]
    exact List.countP_eq_length.mpr hall
  · intro hroom
    rw [hrun, afterSends_of_room c _ hroom]
  · intro hle
    rw [hrun]
    exact (afterSends_events c _).choose_spec.2.2 hle

/-- C2, witness: a frame with a `PHOTO`, an `AUDIO` and a `FILE` attachment
pushes two events on a client with an empty mailbox; on a client whose
mailbox is full the handler is suspended with these two events to send. -/
theorem events_per_known_attachment_witness :
    frameOpcode (exampleFrame (GoVal.float 128) ""
        [exampleAttach "PHOTO" "photoId" "p1", exampleAttach "AUDIO" "audioId" "a1",
         exampleAttach "FILE" "fileId" "f1"] []) = some 128 ∧
    (∃ evs, handleMessage id connectedClient (exampleFrame (GoVal.float 128) ""
        [exampleAttach "PHOTO" "photoId" "p1", exampleAttach "AUDIO" "audioId" "a1",
         exampleAttach "FILE" "fileId" "f1"] []) = afterSends connectedClient evs ∧
      evs.length = 2 ∧
      handleMessage id connectedClient (exampleFrame (GoVal.float 128) ""
        [exampleAttach "PHOTO" "photoId" "p1", exampleAttach "AUDIO" "audioId" "a1",
         exampleAttach "FILE" "fileId" "f1"] []) =
        { client := { connectedClient with messages := evs }, pending := [] }) ∧
    (∃ evs, handleMessage id fullClient (exampleFrame (GoVal.float 128) ""
        [exampleAttach "PHOTO" "photoId" "p1", exampleAttach "AUDIO" "audioId" "a1",
         exampleAttach "FILE" "fileId" "f1"] []) = { client := fullClient, pending := evs } ∧
      evs.length = 2) := by
  have hne : frameAttaches (exampleFrame (GoVal.float 128) ""
      [exampleAttach "PHOTO" "photoId" "p1", exampleAttach "AUDIO" "audioId" "a1",
       exampleAttach "FILE" "fileId" "f1"] []) ≠ [] := by
    simp [frameAttaches, frameMessage, framePayload, exampleFrame, GoMap.get, List.lookup,
      GoVal.asMap, GoVal.asSlice]
  have hcount : (frameAttaches (exampleFrame (GoVal.float 128) ""
      [exampleAttach "PHOTO" "photoId" "p1", exampleAttach "AUDIO" "audioId" "a1",
       exampleAttach "FILE" "fileId" "f1"] [])).countP knownAttachType = 2 := by decide
  refine ⟨by decide, ?_, ?_⟩
  · obtain ⟨evs, hrun, hlen, _, hroom, _⟩ := events_per_known_attachment id connectedClient
      _ (by decide) hne
    rw [hcount] at hlen
    refine ⟨evs, hrun, hlen, ?_⟩
    rw [hroom (by rw [hlen]; decide)]
    rfl
  · obtain ⟨evs, hrun, hlen, _, _, _⟩ := events_per_known_attachment id fullClient
      _ (by decide) hne
    rw [hcount] at hlen
    refine ⟨evs, ?_, hlen⟩
    rw [hrun, afterSends_of_full fullClient evs (by decide)]

/-! ## Text frames (C3) -/

/-- C3, counterexample: a new-message frame with no attachments, the text
`hi` and a non-empty `elements` list pushes one event, of type `link`, and no
`text` event. -/
theorem link_event_for_text_with_elements :
    frameOpcode (exampleFrame (GoVal.float 128) "hi" [] [GoVal.obj []]) = some 128 ∧
      frameAttaches (exampleFrame (GoVal.float 128) "hi" [] [GoVal.obj []]) = [] ∧
      frameText (exampleFrame (GoVal.float 128) "hi" [] [GoVal.obj []]) = "hi" ∧
      handleMessage id connectedClient
        (exampleFrame (GoVal.float 128) "hi" [] [GoVal.obj []]) =
        { client := { connectedClient with messages :=
            [[("opcode", GoVal.int 128), ("type", GoVal.str "link"),
              ("chat_id", GoVal.float 77), ("sender", GoVal.float 42),
              ("text", GoVal.str "hi")]] },
          pending := [] } :=
  ⟨by decide, rfl, rfl, rfl⟩

/-- C3, amended: for every new-message frame (opcode 128) with zero
attachments, zero elements and non-empty message text, handling the frame
pushes exactly one event, of type `text`, whose sender, chat_id, id, time,
utype and prevMessageId fields equal message.sender, payload.chatId,
message.id, message.time, message.type and payload.prevMessageId of the frame
and whose text is the message text; nothing else changes.  The push is the
blocking send on the mailbox of 100 slots: the event is appended when the
mailbox holds fewer than 100 events, and otherwise the handler is suspended
in the send of this event. -/
theorem text_event_fields (order : MapOrder) (c : ChatClient) (jsonData : GoMap)
    (h128 : frameOpcode jsonData = some 128) (hatt : frameAttaches jsonData = [])
    (hel : frameElements jsonData = []) (htext : frameText jsonData ≠ "") :
    ∃ ev, handleMessage order c jsonData = afterSends c [ev] ∧
      (c.messages.length < mailboxCapacity →
        handleMessage order c jsonData =
          { client := { c with messages := c.messages ++ [ev] }, pending := [] }) ∧
      (mailboxCapacity ≤ c.messages.length →
        handleMessage order c jsonData = { client := c, pending := [ev] }) ∧
      ev.get "opcode" = GoVal.int 128 ∧
      ev.get "type" = GoVal.str "text" ∧
      ev.get "sender" = (frameMessage jsonData).get "sender" ∧
      ev.get "chat_id" = (framePayload jsonData).get "chatId" ∧
      ev.get "id" = (frameMessage jsonData).get "id" ∧
      ev.get "time" = (frameMessage jsonData).get "time" ∧
      ev.get "utype" = (frameMessage jsonData).get "type" ∧
      ev.get "prevMessageId" = (framePayload jsonData).get "prevMessageId" ∧
      ev.get "text" = GoVal.str (frameText jsonData) := by
  have hrun : handleMessage order c jsonData = afterSends c
      [[("opcode", GoVal.int 128), ("type", GoVal.str "text"),
        ("chat_id", (framePayload jsonData).get "chatId"),
        ("sender", (frameMessage jsonData).get "sender"),
        ("text", GoVal.str (frameText jsonData)),
        ("id", (frameMessage jsonData).get "id"),
        ("time", (frameMessage jsonData).get "time"),
        ("utype", (frameMessage jsonData).get "type"),
        ("prevMessageId", (framePayload jsonData).get "prevMessageId")]] := by
    rw [handleMessage_of_opcode_128 order c jsonData h128, ← foldl_push_eq_afterSends]
    unfold handleOpcode128
    simp only [frameAttaches, frameElements, frameText, frameMessage, framePayload]
      at hatt hel htext ⊢
    simp only [hatt, hel, List.length_nil, gt_iff_lt, lt_self_iff_false, if_false, htext,
      ne_eq, not_false_eq_true, if_true, List.foldl_cons, List.foldl_nil]
  refine ⟨_, hrun, ?_, ?_, ?_⟩
  · intro hroom
    rw [hrun, afterSends_of_room c _ (by simpa using hroom)]
  · intro hfull
    rw [hrun, afterSends_of_full c _ hfull]
  · simp [GoMap.get, List.lookup]

/-- C3, witness: the frame with text `hi`, no attachments and no elements, on
a client whose mailbox is empty and on one whose mailbox is full. -/
theorem text_event_fields_witness :
    frameOpcode (exampleFrame (GoVal.float 128) "hi" [] []) = some 128 ∧
    frameText (exampleFrame (GoVal.float 128) "hi" [] []) ≠ "" ∧
    (∃ ev, handleMessage id connectedClient (exampleFrame (GoVal.float 128) "hi" [] []) =
        { client := { connectedClient with messages := connectedClient.messages ++ [ev] },
          pending := [] } ∧
      ev.get "type" = GoVal.str "text" ∧
      ev.get "sender" = (frameMessage (exampleFrame (GoVal.float 128) "hi" [] [])).get "sender" ∧
      ev.get "chat_id" = (framePayload (exampleFrame (GoVal.float 128) "hi" [] [])).get "chatId" ∧
      ev.get "id" = (frameMessage (exampleFrame (GoVal.float 128) "hi" [] [])).get "id" ∧
      ev.get "time" = (frameMessage (exampleFrame (GoVal.float 128) "hi" [] [])).get "time" ∧
      ev.get "utype" = (frameMessage (exampleFrame (GoVal.float 128) "hi" [] [])).get "type" ∧
      ev.get "prevMessageId" =
        (framePayload (exampleFrame (GoVal.float 128) "hi" [] [])).get "prevMessageId" ∧
      ev.get "text" = GoVal.str (frameText (exampleFrame (GoVal.float 128) "hi" [] []))) ∧
    (∃ ev, handleMessage id fullClient (exampleFrame (GoVal.float 128) "hi" [] []) =
        { client := fullClient, pending := [ev] } ∧
      ev.get "type" = GoVal.str "text") := by
  obtain ⟨ev, _, hroom, _, _, h2, h3, h4, h5, h6, h7, h8, h9⟩ :=
    text_event_fields id connectedClient (exampleFrame (GoVal.float 128) "hi" [] [])
      (by decide) rfl rfl (by decide)
  obtain ⟨ev2, _, _, hfull2, _, k2, _⟩ :=
    text_event_fields id fullClient (exampleFrame (GoVal.float 128) "hi" [] [])
      (by decide) rfl rfl (by decide)
  exact ⟨by decide, by decide, ⟨ev, hroom (by decide), h2, h3, h4, h5, h6, h7, h8, h9⟩,
    ⟨ev2, hfull2 (by decide), k2⟩⟩

/-! ## Video attachments (C4) -/

theorem attachEvents_video (jsonData : GoMap) (attach : GoVal)
    (h : attachType attach = "VIDEO") :
    ∃ ev, attachEvents jsonData attach = [ev] ∧
      ev.get "type" =
        GoVal.str (if frameText jsonData ≠ "" then "video_with_text" else "video") ∧
      ev.get "videoId" = attach.asMap.get "videoId" ∧
      ev.get "id" = (frameMessage jsonData).get "id" := by
  unfold attachEvents handleAttach
  simp only [attachType] at h
  simp only [h]
  by_cases ht : frameText jsonData = "" <;>
    simp [handleVideoAttach, push, NewChatClient, mailboxCapacity, ht, GoMap.get, GoMap.set,
      List.lookup]

/-- C4, counterexample: on a connected client that has written nothing, a
new-message frame with a `VIDEO` attachment pushes the video event and writes
no envelope at all, so no FetchVideoUrl (opcode 83) envelope; `seq` stays. -/
theorem no_fetch_for_video_attachment :
    frameOpcode (exampleFrame (GoVal.float 128) "" [exampleAttach "VIDEO" "videoId" "v1"] [])
        = some 128 ∧
      connectedClient.ws.isSome = true ∧
      (handleMessage id connectedClient
        (exampleFrame (GoVal.float 128) "" [exampleAttach "VIDEO" "videoId" "v1"] [])).pending
        = [] ∧
      (handleMessage id connectedClient
        (exampleFrame (GoVal.float 128) "" [exampleAttach "VIDEO" "videoId" "v1"]
          [])).client.written = [] ∧
      (handleMessage id connectedClient
        (exampleFrame (GoVal.float 128) "" [exampleAttach "VIDEO" "videoId" "v1"]
          [])).client.seq = connectedClient.seq ∧
      ((handleMessage id connectedClient
        (exampleFrame (GoVal.float 128) "" [exampleAttach "VIDEO" "videoId" "v1"]
          [])).client.messages.map (fun ev => ev.get "type")) = [GoVal.str "video"] :=
  ⟨by decide, rfl, rfl, rfl, rfl, rfl⟩

/-- C4, amended: for every new-message frame (opcode 128) containing an
attachment with `_type` `VIDEO`, handling the frame pushes for that attachment
an event of type `video` (`video_with_text` when the message text is
non-empty) that carries the attachment's videoId and the message's id, and it
writes no outbound envelope and leaves `seq` as it was (the FetchVideoUrl
envelope is written only by a call of `GetVideoURL`).  The push is the
blocking send on the mailbox of 100 slots: the event is one of the events
`evs` the handler sends, which are all in the mailbox when they fit, the
handler being suspended with the rest otherwise. -/
theorem video_event_without_fetch (order : MapOrder) (c : ChatClient) (jsonData : GoMap)
    (attach : GoVal) (h128 : frameOpcode jsonData = some 128)
    (hmem : attach ∈ frameAttaches jsonData) (hvideo : attachType attach = "VIDEO") :
    (∃ evs ev, handleMessage order c jsonData = afterSends c evs ∧ ev ∈ evs ∧
      (c.messages.length + evs.length ≤ mailboxCapacity →
        (handleMessage order c jsonData).pending = [] ∧
        ev ∈ (handleMessage order c jsonData).client.messages) ∧
      attachEvents jsonData attach = [ev] ∧
      ev.get "type" =
        GoVal.str (if frameText jsonData ≠ "" then "video_with_text" else "video") ∧
      ev.get "videoId" = attach.asMap.get "videoId" ∧
      ev.get "id" = (frameMessage jsonData).get "id") ∧
    (handleMessage order c jsonData).client.written = c.written ∧
    (handleMessage order c jsonData).client.seq = c.seq := by
  have hrun : handleMessage order c jsonData =
      afterSends c ((frameAttaches jsonData).map (attachEvents jsonData)).flatten := by
    rw [handleMessage_of_opcode_128 order c jsonData h128,
      handleOpcode128_attaches c jsonData (List.ne_nil_of_mem hmem)]
  obtain ⟨ev, hev, htype, hvid, hid⟩ := attachEvents_video jsonData attach hvideo
  have hin : ev ∈ ((frameAttaches jsonData).map (attachEvents jsonData)).flatten := by
    simp only [List.mem_flatten, List.mem_map]
    exact ⟨[ev], ⟨attach, hmem, hev⟩, List.mem_singleton.mpr rfl⟩
  refine ⟨⟨_, ev, hrun, hin, ?_, hev, htype, hvid, hid⟩, ?_, ?_⟩
  · intro hroom
    rw [hrun, afterSends_of_room c _ hroom]
    exact ⟨rfl, List.mem_append_right _ hin⟩
  · rw [hrun]; rfl
  · rw [hrun]; rfl

/-- C4, witness: a frame with text whose second attachment is a video. -/
theorem video_event_without_fetch_witness :
    frameOpcode (exampleFrame (GoVal.float 128) "look"
      [exampleAttach "PHOTO" "photoId" "p1", exampleAttach "VIDEO" "videoId" "v1"] [])
        = some 128 ∧
    attachType (exampleAttach "VIDEO" "videoId" "v1") = "VIDEO" ∧
    (∃ ev ∈ (handleMessage id connectedClient (exampleFrame (GoVal.float 128) "look"
        [exampleAttach "PHOTO" "photoId" "p1", exampleAttach "VIDEO" "videoId" "v1"]
        [])).client.messages,
      ev.get "type" = GoVal.str "video_with_text" ∧
      ev.get "videoId" = GoVal.str "v1" ∧
      ev.get "id" = GoVal.str "m1") ∧
    (handleMessage id connectedClient (exampleFrame (GoVal.float 128) "look"
      [exampleAttach "PHOTO" "photoId" "p1", exampleAttach "VIDEO" "videoId" "v1"]
      [])).client.written = connectedClient.written ∧
    (handleMessage id connectedClient (exampleFrame (GoVal.float 128) "look"
      [exampleAttach "PHOTO" "photoId" "p1", exampleAttach "VIDEO" "videoId" "v1"]
      [])).client.seq = connectedClient.seq := by
  obtain ⟨⟨evs, ev, hrun, hin, hroom, hev, htype, hvid, hid⟩, hw, hs⟩ :=
    video_event_without_fetch id connectedClient (exampleFrame (GoVal.float 128) "look"
      [exampleAttach "PHOTO" "photoId" "p1", exampleAttach "VIDEO" "videoId" "v1"] [])
      (exampleAttach "VIDEO" "videoId" "v1") (by decide)
      (by simp [frameAttaches, frameMessage, framePayload, exampleFrame, GoMap.get, List.lookup,
        GoVal.asMap, GoVal.asSlice])
      (by decide)
  have hpending : (handleMessage id connectedClient (exampleFrame (GoVal.float 128) "look"
      [exampleAttach "PHOTO" "photoId" "p1", exampleAttach "VIDEO" "videoId" "v1"]
      [])).pending = [] := rfl
  have hfits : connectedClient.messages.length + evs.length ≤ mailboxCapacity := by
    have hp := congrArg Handled.pending hrun
    rw [hpending] at hp
    simp only [afterSends, connectedClient, NewChatClient, List.foldl_nil, List.length_nil,
      Nat.sub_zero] at hp
    have := List.drop_eq_nil_iff.mp hp.symm
    simp only [connectedClient, NewChatClient, List.foldl_nil, List.length_nil, Nat.zero_add]
    exact this
  refine ⟨by decide, by decide, ⟨ev, (hroom hfits).2, ?_, ?_, ?_⟩, hw, hs⟩
  · rw [htype]; rfl
  · rw [hvid]; rfl
  · rw [hid]; rfl

/-! ## Events in attachment order (C5) -/

theorem forall₂_attachEvents (jsonData : GoMap) (attaches : List GoVal)
    (hknown : ∀ a ∈ attaches, knownAttachType a = true) :
    ∃ evs, (attaches.map (attachEvents jsonData)).flatten = evs ∧
      List.Forall₂ (fun a ev => attachEvents jsonData a = [ev] ∧
        ev.get "type" = GoVal.str (specEventType (attachType a) (frameText jsonData)) ∧
        (attachType a = "SHARE" → ev.get "text" = GoVal.str (frameText jsonData)))
        attaches evs := by
  induction attaches with
  | nil => exact ⟨[], rfl, List.Forall₂.nil⟩
  | cons a rest ih =>
    obtain ⟨evs, hevs, hall⟩ := ih (fun x hx => hknown x (List.mem_cons_of_mem _ hx))
    obtain ⟨ev, hev, htype, _, _, hshare⟩ :=
      attachEvents_known jsonData a (hknown a (List.mem_cons_self _ _))
    refine ⟨ev :: evs, ?_, List.Forall₂.cons ⟨hev, htype, hshare⟩ hall⟩
    simp [hev, hevs]

/-- C5, counterexample: a new-message frame with no attachments and the text
`hi`.  Every attachment of the frame (there is none) has a `_type` among
PHOTO, VIDEO, FILE, SHARE, yet the handler pushes one event, of type `text`,
which is the event of no attachment: the events pushed are not one per
attachment. -/
theorem text_event_without_attachment :
    frameOpcode (exampleFrame (GoVal.float 128) "hi" [] []) = some 128 ∧
      frameAttaches (exampleFrame (GoVal.float 128) "hi" [] []) = [] ∧
      (∀ a ∈ frameAttaches (exampleFrame (GoVal.float 128) "hi" [] []),
        knownAttachType a = true) ∧
      (handleMessage id connectedClient
        (exampleFrame (GoVal.float 128) "hi" [] [])).client.messages.map
          (fun ev => ev.get "type") = [GoVal.str "text"] :=
  ⟨by decide, rfl, fun a ha => absurd ha (List.not_mem_nil a), rfl⟩

/-- C5, amended: for every new-message frame (opcode 128) that has at least
one attachment and whose attachments all have `_type` in PHOTO, VIDEO, FILE,
SHARE, the events pushed stand in attachment list order, one per attachment:
the i-th event is the event of the i-th attachment and its type is the one
the specification gives for that attachment (`photo` or `photo_with_text`,
`video` or `video_with_text`, the with-text variant exactly when the message
text is non-empty, `file`, `link`), a `SHARE` event carrying the message
text.  A push is the blocking send on the mailbox of 100 slots: the events
are appended in this order while there is room, all of them when they fit,
the handler being suspended with the rest otherwise. -/
theorem events_in_attachment_order (order : MapOrder) (c : ChatClient) (jsonData : GoMap)
    (h128 : frameOpcode jsonData = some 128) (hne : frameAttaches jsonData ≠ [])
    (hknown : ∀ a ∈ frameAttaches jsonData, knownAttachType a = true) :
    ∃ evs, handleMessage order c jsonData = afterSends c evs ∧
      (c.messages.length + evs.length ≤ mailboxCapacity →
        handleMessage order c jsonData =
          { client := { c with messages := c.messages ++ evs }, pending := [] }) ∧
      List.Forall₂ (fun a ev => attachEvents jsonData a = [ev] ∧
        ev.get "type" = GoVal.str (specEventType (attachType a) (frameText jsonData)) ∧
        (attachType a = "SHARE" → ev.get "text" = GoVal.str (frameText jsonData)))
        (frameAttaches jsonData) evs := by
  obtain ⟨evs, hevs, hall⟩ := forall₂_attachEvents jsonData (frameAttaches jsonData) hknown
  have hrun : handleMessage order c jsonData = afterSends c evs := by
    rw [handleMessage_of_opcode_128 order c jsonData h128,
      handleOpcode128_attaches c jsonData hne, hevs]
  refine ⟨evs, hrun, ?_, hall⟩
  intro hroom
  rw [hrun, afterSends_of_room c evs hroom]

/-- C5, witness: attachments `[PHOTO, FILE]` and no text yield exactly two
events, the photo event first and the file event second. -/
theorem events_in_attachment_order_witness :
    frameOpcode (exampleFrame (GoVal.float 128) ""
      [exampleAttach "PHOTO" "photoId" "p1", exampleAttach "FILE" "fileId" "f1"] [])
        = some 128 ∧
    (∃ evs, handleMessage id connectedClient (exampleFrame (GoVal.float 128) ""
        [exampleAttach "PHOTO" "photoId" "p1", exampleAttach "FILE" "fileId" "f1"] []) =
        afterSends connectedClient evs ∧
      List.Forall₂ (fun a ev => attachEvents (exampleFrame (GoVal.float 128) ""
          [exampleAttach "PHOTO" "photoId" "p1", exampleAttach "FILE" "fileId" "f1"] []) a
            = [ev] ∧
        ev.get "type" = GoVal.str (specEventType (attachType a)
          (frameText (exampleFrame (GoVal.float 128) ""
            [exampleAttach "PHOTO" "photoId" "p1", exampleAttach "FILE" "fileId" "f1"] []))) ∧
        (attachType a = "SHARE" → ev.get "text" = GoVal.str
          (frameText (exampleFrame (GoVal.float 128) ""
            [exampleAttach "PHOTO" "photoId" "p1", exampleAttach "FILE" "fileId" "f1"] []))))
        (frameAttaches (exampleFrame (GoVal.float 128) ""
          [exampleAttach "PHOTO" "photoId" "p1", exampleAttach "FILE" "fileId" "f1"] [])) evs) ∧
    (handleMessage id connectedClient (exampleFrame (GoVal.float 128) ""
        [exampleAttach "PHOTO" "photoId" "p1", exampleAttach "FILE" "fileId" "f1"] [])).pending
      = [] ∧
    ((handleMessage id connectedClient (exampleFrame (GoVal.float 128) ""
        [exampleAttach "PHOTO" "photoId" "p1", exampleAttach "FILE" "fileId" "f1"]
        [])).client.messages.map
      (fun ev => (ev.get "type", ev.get "photoId", ev.get "fileId"))) =
      [(GoVal.str "photo", GoVal.str "p1", GoVal.null),
       (GoVal.str "file", GoVal.null, GoVal.str "f1")] := by
  obtain ⟨evs, hrun, _, hall⟩ := events_in_attachment_order id connectedClient
    (exampleFrame (GoVal.float 128) ""
      [exampleAttach "PHOTO" "photoId" "p1", exampleAttach "FILE" "fileId" "f1"] [])
    (by decide)
    (by simp [frameAttaches, frameMessage, framePayload, exampleFrame, GoMap.get, List.lookup,
      GoVal.asMap, GoVal.asSlice])
    (by simp [frameAttaches, frameMessage, framePayload, exampleFrame, exampleAttach,
      GoMap.get, List.lookup, GoVal.asMap, GoVal.asSlice, GoVal.asString, knownAttachType,
      attachType])
  exact ⟨by decide, ⟨evs, hrun, hall⟩, rfl, rfl⟩

/-! ## Upload URL frames (C6) -/

/-- C6: for every inbound frame with opcode 87 whose payload has an `info`
list with a first element, handling the frame pushes exactly one event, of
type `url_upload`, whose url, token and fileId are those of the first element
(the later elements play no part), and changes nothing else; when `info` is
absent or empty, it pushes no event and leaves the client as it was.  The push
is the blocking send on the mailbox of 100 slots: the event is appended when
the mailbox holds fewer than 100 events, and otherwise the handler is
suspended in the send of this event. -/
theorem upload_url_event (order : MapOrder) (c : ChatClient) (jsonData : GoMap)
    (h87 : frameOpcode jsonData = some 87) :
    (∀ first rest, (framePayload jsonData).get "info" = GoVal.arr (first :: rest) →
      ∃ ev, ev = [("opcode", GoVal.int 87), ("type", GoVal.str "url_upload"),
          ("url", first.asMap.get "url"), ("token", first.asMap.get "token"),
          ("fileId", first.asMap.get "fileId")] ∧
        handleMessage order c jsonData = afterSends c [ev] ∧
        (c.messages.length < mailboxCapacity →
          handleMessage order c jsonData =
            { client := { c with messages := c.messages ++ [ev] }, pending := [] }) ∧
        (mailboxCapacity ≤ c.messages.length →
          handleMessage order c jsonData = { client := c, pending := [ev] })) ∧
    ((framePayload jsonData).lookup "info" = none ∨
      (framePayload jsonData).get "info" = GoVal.arr [] →
      handleMessage order c jsonData = { client := c, pending := [] }) := by
  rw [handleMessage_of_opcode_87 order c jsonData h87]
  constructor
  · intro first rest hinfo
    have hrun : handleOpcode87 { client := c, pending := [] } jsonData = afterSends c
        [[("opcode", GoVal.int 87), ("type", GoVal.str "url_upload"),
          ("url", first.asMap.get "url"), ("token", first.asMap.get "token"),
          ("fileId", first.asMap.get "fileId")]] := by
      rw [← foldl_push_eq_afterSends]
      unfold handleOpcode87
      simp only [framePayload] at hinfo
      simp [hinfo, GoVal.asSlice]
    refine ⟨_, rfl, hrun, ?_, ?_⟩
    · intro hroom
      rw [hrun, afterSends_of_room c _ (by simpa using hroom)]
    · intro hfull
      rw [hrun, afterSends_of_full c _ hfull]
  · intro h
    have hnil : ((framePayload jsonData).get "info").asSlice = [] := by
      rcases h with habs | hempty
      · simp only [GoMap.get, habs, GoVal.asSlice]
      · simp only [hempty, GoVal.asSlice]
    unfold handleOpcode87
    simp only [framePayload] at hnil
    simp [hnil]

/-- C6, witness: the payload `info: [(url U, token T, fileId F), (url U2)]`
gives the one event with url U, token T and fileId F, appended to an empty
mailbox and waiting when the mailbox is full. -/
theorem upload_url_event_witness :
    frameOpcode (examplePayloadFrame (GoVal.float 87)
      [("info", GoVal.arr
        [GoVal.obj [("url", GoVal.str "U"), ("token", GoVal.str "T"), ("fileId", GoVal.str "F")],
         GoVal.obj [("url", GoVal.str "U2")]])]) = some 87 ∧
    handleMessage id connectedClient (examplePayloadFrame (GoVal.float 87)
      [("info", GoVal.arr
        [GoVal.obj [("url", GoVal.str "U"), ("token", GoVal.str "T"), ("fileId", GoVal.str "F")],
         GoVal.obj [("url", GoVal.str "U2")]])]) =
      { client := { connectedClient with messages := connectedClient.messages ++
          [[("opcode", GoVal.int 87), ("type", GoVal.str "url_upload"),
            ("url", GoVal.str "U"), ("token", GoVal.str "T"), ("fileId", GoVal.str "F")]] },
        pending := [] } ∧
    handleMessage id fullClient (examplePayloadFrame (GoVal.float 87)
      [("info", GoVal.arr
        [GoVal.obj [("url", GoVal.str "U"), ("token", GoVal.str "T"), ("fileId", GoVal.str "F")],
         GoVal.obj [("url", GoVal.str "U2")]])]) =
      { client := fullClient,
        pending := [[("opcode", GoVal.int 87), ("type", GoVal.str "url_upload"),
          ("url", GoVal.str "U"), ("token", GoVal.str "T"), ("fileId", GoVal.str "F")]] } := by
  obtain ⟨ev, hev, _, hroom, _⟩ := (upload_url_event id connectedClient
    (examplePayloadFrame (GoVal.float 87)
      [("info", GoVal.arr
        [GoVal.obj [("url", GoVal.str "U"), ("token", GoVal.str "T"), ("fileId", GoVal.str "F")],
         GoVal.obj [("url", GoVal.str "U2")]])]) (by decide)).1
      (GoVal.obj [("url", GoVal.str "U"), ("token", GoVal.str "T"), ("fileId", GoVal.str "F")])
      [GoVal.obj [("url", GoVal.str "U2")]] rfl
  obtain ⟨ev2, hev2, _, _, hfull⟩ := (upload_url_event id fullClient
    (examplePayloadFrame (GoVal.float 87)
      [("info", GoVal.arr
        [GoVal.obj [("url", GoVal.str "U"), ("token", GoVal.str "T"), ("fileId", GoVal.str "F")],
         GoVal.obj [("url", GoVal.str "U2")]])]) (by decide)).1
      (GoVal.obj [("url", GoVal.str "U"), ("token", GoVal.str "T"), ("fileId", GoVal.str "F")])
      [GoVal.obj [("url", GoVal.str "U2")]] rfl
  subst hev
  subst hev2
  exact ⟨by decide, hroom (by decide), hfull (by decide)⟩

/-! ## Ignored frames (C9) -/

/-- C9, counterexample: a frame whose opcode is 128.5, which is none of 128,
83, 87, is handled as a new-message frame: with the text `hi` it pushes a
`text` event. -/
theorem fractional_opcode_is_handled :
    (exampleFrame (GoVal.float (mkRat 257 2)) "hi" [] []).get "opcode"
        = GoVal.float (mkRat 257 2) ∧
      mkRat 257 2 ≠ (128 : ℚ) ∧ mkRat 257 2 ≠ (83 : ℚ) ∧ mkRat 257 2 ≠ (87 : ℚ) ∧
      (handleMessage id connectedClient
        (exampleFrame (GoVal.float (mkRat 257 2)) "hi" [] [])).client.messages =
        [[("opcode", GoVal.int 128), ("type", GoVal.str "text"),
          ("chat_id", GoVal.float 77), ("sender", GoVal.float 42), ("text", GoVal.str "hi"),
          ("id", GoVal.str "m1"), ("time", GoVal.float 1000), ("utype", GoVal.str "USER"),
          ("prevMessageId", GoVal.str "m0")]] :=
  ⟨rfl, by decide, by decide, by decide, rfl⟩

/-- C9, amended: for every decoded inbound frame that has no opcode field, or
whose opcode is not a number, or whose opcode with the fraction discarded (the
value `int(opcode)` the dispatcher switches on) is not one of 128, 83, 87,
`handleMessage` pushes no event, writes no outbound envelope and leaves the
client state unchanged: it returns at once, with nothing left to send. -/
theorem other_frames_ignored (order : MapOrder) (c : ChatClient) (jsonData : GoMap)
    (h : ∀ n, frameOpcode jsonData = some n → n ≠ 128 ∧ n ≠ 83 ∧ n ≠ 87) :
    handleMessage order c jsonData = { client := c, pending := [] } := by
  unfold frameOpcode at h
  unfold handleMessage
  simp only []
  split
  · rename_i q hq
    rw [hq] at h
    obtain ⟨h1, h2, h3⟩ := h (goInt q) rfl
    simp [h1, h2, h3]
  · rfl

/-- C9, witness: a frame with opcode 1 (the reply to a ping). -/
theorem other_frames_ignored_witness :
    frameOpcode (exampleFrame (GoVal.float 1) "hi" [] []) = some 1 ∧
    handleMessage id connectedClient (exampleFrame (GoVal.float 1) "hi" [] [])
      = { client := connectedClient, pending := [] } :=
  ⟨by decide, other_frames_ignored id connectedClient _ (by
    intro n hn
    have h1 : frameOpcode (exampleFrame (GoVal.float 1) "hi" [] []) = some 1 := by decide
    rw [h1] at hn
    cases hn
    decide)⟩

/-! ## Stop (C7) and commands without a socket (C8) -/

/-- The first `Stop` of a client whose `stopChan` is open succeeds; every
further `Stop` panics. -/
theorem Stop_again_panics (c c1 : ChatClient) (h : Stop c = Except.ok c1) :
    c1.running = false ∧ c1.stopChanClosed = true ∧
      Stop c1 = Except.error Fault.closeOfClosedChannel := by
  unfold Stop at h
  simp only [] at h
  split_ifs at h with hclosed
  cases hws : c.ws with
  | none =>
    simp only [hws, Except.ok.injEq] at h
    subst h
    exact ⟨rfl, rfl, by simp [Stop]⟩
  | some conn =>
    simp only [hws, Except.ok.injEq] at h
    subst h
    exact ⟨rfl, rfl, by simp [Stop]⟩

/-- C7, the code at the failing input: on a connected client the first `Stop`
clears `running`, closes `stopChan` and closes the socket; the second `Stop`
panics with a close of a closed channel, on a connected client as on one that
never had a socket. -/
theorem second_Stop_panics :
    Stop connectedClient =
        Except.ok { connectedClient with
          running := false, stopChanClosed := true, ws := some { closed := true } } ∧
      (Stop connectedClient).bind Stop = Except.error Fault.closeOfClosedChannel ∧
      (Stop (NewChatClient "token" "device" [])).bind Stop
        = Except.error Fault.closeOfClosedChannel :=
  ⟨rfl, rfl, rfl⟩

/-- C8, the code at the failing inputs: on a client that never had a socket
(reconnect policy enabled or not) `SendMessage` panics, its second `send`
closing `stopChan` again; and after a `Stop` a `SubscribeChat` without a
socket panics in the same way. -/
theorem command_without_socket_panics :
    (NewChatClient "token" "device" []).ws = none ∧
      SendMessage (NewChatClient "token" "device" []) (GoVal.int 123456) "Hello" 0
        = Except.error Fault.closeOfClosedChannel ∧
      SendMessage (NewChatClient "token" "device" [WithAllowReconnect true])
          (GoVal.int 123456) "Hello" 0
        = Except.error Fault.closeOfClosedChannel ∧
      (Stop (NewChatClient "token" "device" [])).bind
          (fun c => SubscribeChat c (GoVal.int 123456))
        = Except.error Fault.closeOfClosedChannel :=
  ⟨rfl, rfl, rfl, rfl⟩

/-! ## The video URL frame (C10) -/

/-- C10, the code at the failing input: for the opcode 83 frame with payload
fields `EXTERNAL`, `cache`, `MP4_720` in this wire order, two visiting orders
of the same map (the wire order, and the one that starts at the second entry)
give two different events: `video_url` is the value of `MP4_720` in one and
the value of `EXTERNAL` in the other. -/
theorem video_url_depends_on_map_order :
    MapOrder.Valid id ∧ MapOrder.Valid (fun m => m.rotate 1) ∧
      frameOpcode (examplePayloadFrame (GoVal.float 83)
        [("EXTERNAL", GoVal.str "e"), ("cache", GoVal.bool false),
         ("MP4_720", GoVal.str "u")]) = some 83 ∧
      (handleMessage id connectedClient (examplePayloadFrame (GoVal.float 83)
        [("EXTERNAL", GoVal.str "e"), ("cache", GoVal.bool false),
         ("MP4_720", GoVal.str "u")])).client.messages.map (fun ev => ev.get "video_url")
        = [GoVal.str "u"] ∧
      (handleMessage (fun m => m.rotate 1) connectedClient (examplePayloadFrame (GoVal.float 83)
        [("EXTERNAL", GoVal.str "e"), ("cache", GoVal.bool false),
         ("MP4_720", GoVal.str "u")])).client.messages.map (fun ev => ev.get "video_url")
        = [GoVal.str "e"] :=
  ⟨fun m => List.Perm.refl m, fun m => List.rotate_perm m 1, by decide, rfl, rfl⟩

/-! ## The opcode of every envelope (C11) -/

theorem sendInfo_connected (c : ChatClient) (hws : c.ws.isSome = true) :
    sendInfo c = Except.ok { c with
      seq := c.seq + 1 + 1,
      written := c.written ++
        [[("ver", GoVal.int 11), ("cmd", GoVal.int 0), ("seq", GoVal.int (c.seq + 1)),
          ("opcode", GoVal.int 6),
          ("payload", GoVal.obj
            [("userAgent", GoVal.obj
               [("deviceType", GoVal.str "WEB"),
                ("locale", GoVal.str "ru"),
                ("deviceLocale", GoVal.str "ru"),
                ("osVersion", GoVal.str c.OSVersion),
                ("deviceName", GoVal.str c.DeviceName),
                ("headerUserAgent", GoVal.str c.HeaderUserAgent),
                ("appVersion", GoVal.str "25.11.1"),
                ("screen", GoVal.str "1080x1920 1.0x"),
                ("timezone", GoVal.str "Asia/Yekaterinburg")]),
             ("deviceId", GoVal.str c.DeviceID)])],
         [("ver", GoVal.int 11), ("cmd", GoVal.int 0), ("seq", GoVal.int (c.seq + 1 + 1)),
          ("opcode", GoVal.int 19),
          ("payload", GoVal.obj
            [("interactive", GoVal.bool true),
             ("token", GoVal.str c.Token),
             ("chatsCount", GoVal.int c.WatchChats.length),
             ("chatsSync", GoVal.int 0),
             ("contactsSync", GoVal.int 0),
             ("presenceSync", GoVal.int 0),
             ("draftsSync", GoVal.int 0)])]] } := by
  simp only [sendInfo]
  rw [send_connected _ _ _ (by simpa using hws)
    (by simp [GoVal.encodable, GoVal.encodableFields])]
  simp only [sendHandshake]
  rw [send_connected _ _ _ (by simpa using hws)
    (by simp [GoVal.encodable, GoVal.encodableFields])]
  simp

theorem send_with_socket (c : ChatClient) (data : GoMap) (sendType : String)
    (hws : c.ws.isSome = true) :
    send c data sendType =
      Except.ok (if (GoVal.obj data).encodable then
        { c with written := c.written ++ [data] } else c) := by
  unfold send
  cases h : c.ws with
  | none => simp [h] at hws
  | some conn => cases henc : (GoVal.obj data).encodable <;> simp

theorem run_opcodes (c : ChatClient) (cmd : Command) (hws : c.ws.isSome = true) :
    ∃ c2 out, cmd.run c = Except.ok c2 ∧ c2.written = c.written ++ out ∧
      (∀ env ∈ out, env.get "ver" = GoVal.int 11 ∧ env.get "cmd" = GoVal.int 0 ∧
        ∃ k ∈ cmd.kinds c, opcodeOf env = some (specOpcode k)) ∧
      (cmd.encodable = true →
        out.map opcodeOf = (cmd.kinds c).map (fun k => some (specOpcode k))) := by
  cases cmd with
  | sendMessage chatID text now =>
    simp only [Command.run, SendMessage]
    rw [send_with_socket _ _ _ (by simpa using hws)]
    cases henc : chatID.encodable
    · simp [GoVal.encodable, GoVal.encodableFields, GoVal.encodableList, henc]
      rw [send_with_socket _ _ _ (by simpa using hws)]
      simp [GoVal.encodable, GoVal.encodableFields, henc, Command.encodable]
    · simp [GoVal.encodable, GoVal.encodableFields, GoVal.encodableList, henc]
      rw [send_with_socket _ _ _ (by simpa using hws)]
      simp [GoVal.encodable, GoVal.encodableFields, henc, Command.encodable, Command.kinds,
        opcodeOf, GoMap.get, List.lookup, specOpcode]
  | sendFile chatID fileID now =>
    simp only [Command.run, SendFile]
    rw [send_with_socket _ _ _ (by simpa using hws)]
    cases henc : chatID.encodable <;> cases henc2 : fileID.encodable <;>
      simp [GoVal.encodable, GoVal.encodableFields, GoVal.encodableList, henc, henc2,
        Command.encodable, Command.kinds, opcodeOf, GoMap.get, List.lookup, specOpcode]
  | subscribeChat chatID =>
    simp only [Command.run, SubscribeChat]
    rw [send_with_socket _ _ _ (by simpa using hws)]
    cases henc : chatID.encodable <;>
      simp [GoVal.encodable, GoVal.encodableFields, henc,
        Command.encodable, Command.kinds, opcodeOf, GoMap.get, List.lookup, specOpcode]
  | getVideoURL videoID chatID messageID =>
    simp only [Command.run, GetVideoURL]
    rw [send_with_socket _ _ _ (by simpa using hws)]
    cases henc : videoID.encodable <;> cases henc2 : chatID.encodable <;>
      cases henc3 : messageID.encodable <;>
      simp [GoVal.encodable, GoVal.encodableFields, henc, henc2, henc3,
        Command.encodable, Command.kinds, opcodeOf, GoMap.get, List.lookup, specOpcode]
  | requestURLToSendFile count =>
    simp only [Command.run, RequestURLToSendFile]
    rw [send_with_socket _ _ _ (by simpa using hws)]
    simp [GoVal.encodable, GoVal.encodableFields,
      Command.encodable, Command.kinds, opcodeOf, GoMap.get, List.lookup, specOpcode]
  | ping =>
    simp only [Command.run, keepaliveTick]
    cases hr : c.running
    · simp [Command.kinds, hr]
    · simp only [Bool.not_true, Bool.false_eq_true, if_false]
      rw [send_with_socket _ _ _ (by simpa using hws)]
      simp [GoVal.encodable, GoVal.encodableFields, hr,
        Command.encodable, Command.kinds, opcodeOf, GoMap.get, List.lookup, specOpcode]

/-- C11: every envelope the client hands to the transport has `ver` 11, `cmd`
0 and the opcode the specification fixes for its kind, for every argument
value.  A command call on a client with a socket writes only envelopes of its
kinds (SendMessage 64 then ReadMarker 177, SendFile 64, SubscribeChat 75,
FetchVideoUrl 83, RequestUploadUrl 87, Ping 1), and exactly these when its
arguments can be encoded; a successful `Connect` writes Info (6) and then
Handshake (19). -/
theorem envelope_opcodes (c : ChatClient) (hws : c.ws.isSome = true) :
    (∀ cmd : Command, ∃ c2 out, cmd.run c = Except.ok c2 ∧ c2.written = c.written ++ out ∧
      (∀ env ∈ out, env.get "ver" = GoVal.int 11 ∧ env.get "cmd" = GoVal.int 0 ∧
        ∃ k ∈ cmd.kinds c, opcodeOf env = some (specOpcode k)) ∧
      (cmd.encodable = true →
        out.map opcodeOf = (cmd.kinds c).map (fun k => some (specOpcode k)))) ∧
    (∀ (c0 : ChatClient) (ws : Conn), ∃ c2 out, Connect c0 (Except.ok ws) = Except.ok (c2, none) ∧
      c2.written = c0.written ++ out ∧
      (∀ env ∈ out, env.get "ver" = GoVal.int 11 ∧ env.get "cmd" = GoVal.int 0) ∧
      out.map opcodeOf =
        [some (specOpcode CommandKind.Info), some (specOpcode CommandKind.Handshake)]) := by
  refine ⟨fun cmd => run_opcodes c cmd hws, ?_⟩
  intro c0 ws
  simp only [Connect]
  rw [sendInfo_connected _ (by rfl)]
  refine ⟨_, _, rfl, rfl, ?_, ?_⟩
  · intro env henv
    simp only [List.mem_cons, List.mem_singleton, List.not_mem_nil, or_false] at henv
    rcases henv with rfl | rfl <;> simp [GoMap.get, List.lookup]
  · simp [opcodeOf, GoMap.get, List.lookup, specOpcode]

/-- C11, witness: the commands of the example driver on a connected client. -/
theorem envelope_opcodes_witness :
    connectedClient.ws.isSome = true ∧
    (∃ c2 out, (Command.sendMessage (GoVal.int 123456) "Hello" 0).run connectedClient
        = Except.ok c2 ∧ c2.written = connectedClient.written ++ out ∧
      out.map opcodeOf = [some 64, some 177]) ∧
    (∃ c2 out, Connect (NewChatClient "token" "device" []) (Except.ok { closed := false })
        = Except.ok (c2, none) ∧
      c2.written = (NewChatClient "token" "device" []).written ++ out ∧
      out.map opcodeOf = [some 6, some 19]) := by
  obtain ⟨hcmd, hconn⟩ := envelope_opcodes connectedClient rfl
  refine ⟨rfl, ?_, ?_⟩
  · obtain ⟨c2, out, hrun, hw, _, hop⟩ := hcmd (Command.sendMessage (GoVal.int 123456) "Hello" 0)
    exact ⟨c2, out, hrun, hw, by simpa [Command.kinds, specOpcode] using hop rfl⟩
  · obtain ⟨c2, out, hrun, hw, _, hop⟩ := hconn (NewChatClient "token" "device" [])
      { closed := false }
    exact ⟨c2, out, hrun, hw, by simpa [specOpcode] using hop⟩

/-! ## What SendMessage and SendFile write (C12) -/

/-- C12, counterexample: on a connected client a `SendMessage` whose chat id
cannot be encoded writes no envelope at all (and uses up two sequence
numbers). -/
theorem sendMessage_unencodable_writes_nothing :
    connectedClient.ws.isSome = true ∧
      SendMessage connectedClient GoVal.unsupported "Hello" 0 =
        Except.ok { connectedClient with seq := 2 } ∧
      ({ connectedClient with seq := 2 } : ChatClient).written = [] :=
  ⟨rfl, rfl, rfl⟩

/-- C12, amended: for every chat id that can be JSON-encoded and every text, a
`SendMessage` call on a connected client writes exactly two envelopes: first
opcode 64 whose payload carries that chatId and a message with the given text
and empty `elements` and `attaches` lists, then opcode 177 for the same
chatId, with `seq` one greater; and for every chat id and file id that can be
encoded a `SendFile` call writes exactly one opcode 64 envelope whose message
has exactly one attachment, of `_type` FILE with the fileId, and no text
field. -/
theorem sendMessage_and_sendFile_envelopes (c : ChatClient) (chatID fileID : GoVal)
    (text : String) (now : Int) (hws : c.ws.isSome = true)
    (hchat : chatID.encodable = true) (hfile : fileID.encodable = true) :
    SendMessage c chatID text now = Except.ok { c with
      seq := c.seq + 1 + 1,
      written := c.written ++
        [[("ver", GoVal.int 11), ("cmd", GoVal.int 0), ("seq", GoVal.int (c.seq + 1)),
          ("opcode", GoVal.int 64),
          ("payload", GoVal.obj
            [("chatId", chatID),
             ("message", GoVal.obj [("text", GoVal.str text), ("cid", GoVal.int now),
                ("elements", GoVal.arr []), ("attaches", GoVal.arr [])]),
             ("notify", GoVal.bool true)])],
         [("ver", GoVal.int 11), ("cmd", GoVal.int 0), ("seq", GoVal.int (c.seq + 1 + 1)),
          ("opcode", GoVal.int 177),
          ("payload", GoVal.obj [("chatId", chatID), ("time", GoVal.int 0)])]] } ∧
    SendFile c chatID fileID now = Except.ok { c with
      seq := c.seq + 1,
      written := c.written ++
        [[("ver", GoVal.int 11), ("cmd", GoVal.int 0), ("seq", GoVal.int (c.seq + 1)),
          ("opcode", GoVal.int 64),
          ("payload", GoVal.obj
            [("chatId", chatID),
             ("message", GoVal.obj [("cid", GoVal.int now),
                ("attaches", GoVal.arr
                  [GoVal.obj [("_type", GoVal.str "FILE"), ("fileId", fileID)]])]),
             ("notify", GoVal.bool true)])]] } := by
  constructor
  · simp only [SendMessage]
    rw [send_connected _ _ _ (by simpa using hws)
      (by simp [GoVal.encodable, GoVal.encodableFields, GoVal.encodableList, hchat])]
    simp only []
    rw [send_connected _ _ _ (by simpa using hws)
      (by simp [GoVal.encodable, GoVal.encodableFields, hchat])]
    simp
  · simp only [SendFile]
    rw [send_connected _ _ _ (by simpa using hws)
      (by simp [GoVal.encodable, GoVal.encodableFields, GoVal.encodableList, hchat, hfile])]

/-- C12, witness: the calls of the example driver, `SendMessage(123456,
"Hello")` and `SendFile(123456, fileID)`, on a connected client. -/
theorem sendMessage_and_sendFile_envelopes_witness :
    connectedClient.ws.isSome = true ∧
    ((SendMessage connectedClient (GoVal.int 123456) "Hello" 1700000000000).toOption.map
      (fun c => c.written.map (fun env => (seqOf env, opcodeOf env))))
      = some [(some 1, some 64), (some 2, some 177)] ∧
    ((SendFile connectedClient (GoVal.int 123456) (GoVal.float 99) 1700000000000).toOption.map
      (fun c => c.written.map (fun env => (seqOf env, opcodeOf env))))
      = some [(some 1, some 64)] := by
  obtain ⟨h1, h2⟩ := sendMessage_and_sendFile_envelopes connectedClient (GoVal.int 123456)
    (GoVal.float 99) "Hello" 1700000000000 rfl rfl rfl
  exact ⟨rfl, by rw [h1]; rfl, by rw [h2]; rfl⟩

/-! ## Connect (C16) -/

/-- C16: a successful `Connect` on a freshly constructed client (`seq` 0,
nothing written) marks the session running, attaches the socket and writes
exactly two envelopes, in this order: Info (opcode 6, `seq` 1) carrying the
device identity, then Handshake (opcode 19, `seq` 2) carrying the token,
`interactive` true and the sync cursors chatsSync, contactsSync, presenceSync
and draftsSync all 0; a failed socket open returns a connection error, writes
nothing and leaves the whole client, with `running`, `seq` and the transport,
unchanged. -/
theorem connect_handshake (c : ChatClient) (hseq : c.seq = 0) (hnew : c.written = []) :
    (∀ ws : Conn, Connect c (Except.ok ws) = Except.ok ({ c with
      ws := some ws,
      running := true,
      seq := 2,
      written :=
        [[("ver", GoVal.int 11), ("cmd", GoVal.int 0), ("seq", GoVal.int 1),
          ("opcode", GoVal.int 6),
          ("payload", GoVal.obj
            [("userAgent", GoVal.obj
               [("deviceType", GoVal.str "WEB"),
                ("locale", GoVal.str "ru"),
                ("deviceLocale", GoVal.str "ru"),
                ("osVersion", GoVal.str c.OSVersion),
                ("deviceName", GoVal.str c.DeviceName),
                ("headerUserAgent", GoVal.str c.HeaderUserAgent),
                ("appVersion", GoVal.str "25.11.1"),
                ("screen", GoVal.str "1080x1920 1.0x"),
                ("timezone", GoVal.str "Asia/Yekaterinburg")]),
             ("deviceId", GoVal.str c.DeviceID)])],
         [("ver", GoVal.int 11), ("cmd", GoVal.int 0), ("seq", GoVal.int 2),
          ("opcode", GoVal.int 19),
          ("payload", GoVal.obj
            [("interactive", GoVal.bool true),
             ("token", GoVal.str c.Token),
             ("chatsCount", GoVal.int c.WatchChats.length),
             ("chatsSync", GoVal.int 0),
             ("contactsSync", GoVal.int 0),
             ("presenceSync", GoVal.int 0),
             ("draftsSync", GoVal.int 0)])]] }, none)) ∧
    (∀ err : String, Connect c (Except.error err) =
      Except.ok (c, some ("connection error: " ++ err))) := by
  constructor
  · intro ws
    simp only [Connect]
    rw [sendInfo_connected _ (by rfl)]
    simp [hseq, hnew]
  · intro err
    rfl

/-- C16, witness: `NewChatClient` with the options of the example driver. -/
theorem connect_handshake_witness :
    (NewChatClient "token" "device" [WithDebug false, WithAllowReconnect true]).seq = 0 ∧
    (∃ c2, Connect (NewChatClient "token" "device" [WithDebug false, WithAllowReconnect true])
        (Except.ok { closed := false }) = Except.ok (c2, none) ∧
      c2.running = true ∧ c2.seq = 2 ∧
      c2.written.map (fun env => (seqOf env, opcodeOf env)) =
        [(some 1, some 6), (some 2, some 19)]) ∧
    Connect (NewChatClient "token" "device" [WithDebug false, WithAllowReconnect true])
      (Except.error "dial tcp: timeout") =
      Except.ok (NewChatClient "token" "device" [WithDebug false, WithAllowReconnect true],
        some "connection error: dial tcp: timeout") := by
  obtain ⟨hok, herr⟩ := connect_handshake
    (NewChatClient "token" "device" [WithDebug false, WithAllowReconnect true]) rfl rfl
  refine ⟨rfl, ⟨_, hok { closed := false }, rfl, rfl, rfl⟩, ?_⟩
  rw [herr]
  rfl

/-! ## The mailbox (C14) -/

theorem sendAll_of_room (evs : List GoMap) (c : ChatClient)
    (h : c.messages.length + evs.length ≤ mailboxCapacity) :
    sendAll c evs = some { c with messages := c.messages ++ evs } := by
  induction evs generalizing c with
  | nil => simp [sendAll]
  | cons ev rest ih =>
    simp only [List.length_cons] at h
    have hroom : c.messages.length < mailboxCapacity := by omega
    simp only [sendAll, trySend, hroom, if_true]
    rw [ih { c with messages := c.messages ++ [ev] }
      (by simp only [List.length_append, List.length_singleton]; omega)]
    simp

theorem getMessages_all (msgs : List GoMap) (c : ChatClient) (h : c.messages = msgs) :
    getMessages c msgs.length =
      (msgs.map (fun msg => (msg, true)), { c with messages := [] }) := by
  induction msgs generalizing c with
  | nil => simp [getMessages, ← h]
  | cons msg rest ih =>
    simp only [List.length_cons, getMessages, GetMessage, h, List.map_cons]
    rw [ih { c with messages := rest } rfl]

/-- C14: the mailbox is a FIFO queue of capacity 100.  For every mailbox and
every sequence of events that fits (at most 100 events in all, so at most 100
pushed on an empty mailbox) the sends complete without suspending, the
successive `GetMessage` calls return the events strictly in push order, each
with present = true and each removing exactly the event it returns, and
`GetMessage` on the emptied mailbox returns (nil, false) at once and leaves it
unchanged; when the mailbox holds 100 events a further send does not
complete. -/
theorem mailbox_fifo (c : ChatClient) (evs : List GoMap)
    (h : c.messages.length + evs.length ≤ mailboxCapacity) :
    sendAll c evs = some { c with messages := c.messages ++ evs } ∧
    getMessages { c with messages := c.messages ++ evs } (c.messages ++ evs).length =
      ((c.messages ++ evs).map (fun msg => (msg, true)), { c with messages := [] }) ∧
    (∀ msg rest, GetMessage { c with messages := msg :: rest } =
      ((msg, true), { c with messages := rest })) ∧
    GetMessage { c with messages := [] } = (([], false), { c with messages := [] }) ∧
    (c.messages.length + evs.length = mailboxCapacity →
      ∀ ev, trySend { c with messages := c.messages ++ evs } ev = none) := by
  refine ⟨sendAll_of_room evs c h, ?_, fun _ _ => rfl, rfl, ?_⟩
  · exact getMessages_all (c.messages ++ evs) { c with messages := c.messages ++ evs } rfl
  · intro hfull ev
    simp [trySend, List.length_append, hfull]

/-- C14, witness: two events pushed on the empty mailbox of a new client come
back in push order, then the mailbox is empty. -/
theorem mailbox_fifo_witness :
    (NewChatClient "token" "device" []).messages.length + 2 ≤ mailboxCapacity ∧
    sendAll (NewChatClient "token" "device" [])
        [[("type", GoVal.str "text")], [("type", GoVal.str "link")]] =
      some { NewChatClient "token" "device" [] with
        messages := [[("type", GoVal.str "text")], [("type", GoVal.str "link")]] } ∧
    (getMessages { NewChatClient "token" "device" [] with
        messages := [[("type", GoVal.str "text")], [("type", GoVal.str "link")]] } 3).1 =
      [([("type", GoVal.str "text")], true), ([("type", GoVal.str "link")], true),
       ([], false)] := by
  have h := mailbox_fifo (NewChatClient "token" "device" [])
    [[("type", GoVal.str "text")], [("type", GoVal.str "link")]] (by decide)
  exact ⟨by decide, h.1, rfl⟩

/-! ## Concurrent callers (C15) -/

theorem subscribeChat_as_statements (c : ChatClient) (chatID : GoVal) :
    runStmts c (subscribeChatStmts chatID) = SubscribeChat c chatID := by
  simp only [subscribeChatStmts, runStmts, Stmt.exec, SubscribeChat]
  cases send _ _ _ <;> rfl

/-- C15, the code at the failing input: two goroutines each call
`SubscribeChat` on a connected client with `seq` 0.  `c.seq++` is executed
outside the mutex of `send`; under the schedule in which both increments run
before either envelope is built, both envelopes carry `seq` 2 and the number 1
is skipped, whereas the calls one after the other give 1 and 2. -/
theorem concurrent_callers_repeat_seq :
    (runInterleaved connectedClient (subscribeChatStmts (GoVal.int 1))
        (subscribeChatStmts (GoVal.int 2)) [false, true, false, true]).toOption.map
      (fun c => c.written.map seqOf) = some [some 2, some 2] ∧
    (runInterleaved connectedClient (subscribeChatStmts (GoVal.int 1))
        (subscribeChatStmts (GoVal.int 2)) [false, false, true, true]).toOption.map
      (fun c => c.written.map seqOf) = some [some 1, some 2] :=
  ⟨rfl, rfl⟩

/-! ## The upload routine (C17) -/

/-- C17, counterexample: with the 2xx status 204 (No Content) `uploadFile`
returns an upload failure. -/
theorem upload_fails_on_204 :
    uploadFile (respondingEnv 204 "") "https://upload" "/tmp/file" "T"
      = some "upload failed with status 204: " :=
  by decide

/-- C17, amended: when the request gets a response, `uploadFile` reports
success exactly when the status code is 200 or 201: for these two it returns
no error, and for every other status code (the other 2xx codes included) it
returns an upload failure whose message names the status and ends with the
response body. -/
theorem upload_success_iff_200_or_201 (statusCode : Int) (body url filePath token : String) :
    (uploadFile (respondingEnv statusCode body) url filePath token = none ↔
      (statusCode = 200 ∨ statusCode = 201)) ∧
    (statusCode ≠ 200 → statusCode ≠ 201 →
      uploadFile (respondingEnv statusCode body) url filePath token =
        some ("upload failed with status " ++ toString statusCode ++ ": " ++ body)) := by
  simp only [uploadFile, respondingEnv]
  constructor
  · constructor
    · intro h
      by_contra hne
      push_neg at hne
      simp [hne.1, hne.2] at h
    · rintro (h | h) <;> simp [h]
  · intro h1 h2
    simp [h1, h2]

/-- C17, witness: status 201 gives no error, status 500 gives the failure
with the body. -/
theorem upload_success_iff_200_or_201_witness :
    uploadFile (respondingEnv 201 "created") "https://upload" "/tmp/file" "T" = none ∧
    uploadFile (respondingEnv 500 "boom") "https://upload" "/tmp/file" "T" =
      some ("upload failed with status " ++ toString (500 : Int) ++ ": " ++ "boom") :=
  ⟨(upload_success_iff_200_or_201 201 "created" "https://upload" "/tmp/file" "T").1.mpr
      (Or.inr rfl),
    (upload_success_iff_200_or_201 500 "boom" "https://upload" "/tmp/file" "T").2
      (by decide) (by decide)⟩

/-! ## Lemmas on the events of a frame -/

theorem handleOpcode128_without_attaches (c : ChatClient) (jsonData : GoMap)
    (hatt : frameAttaches jsonData = []) :
    handleOpcode128 { client := c, pending := [] } jsonData = afterSends c
      (if (frameElements jsonData).length > 0 then
        [[("opcode", GoVal.int 128), ("type", GoVal.str "link"),
          ("chat_id", (framePayload jsonData).get "chatId"),
          ("sender", (frameMessage jsonData).get "sender"),
          ("text", GoVal.str (frameText jsonData))]]
      else if frameText jsonData ≠ "" then
        [[("opcode", GoVal.int 128), ("type", GoVal.str "text"),
          ("chat_id", (framePayload jsonData).get "chatId"),
          ("sender", (frameMessage jsonData).get "sender"),
          ("text", GoVal.str (frameText jsonData)),
          ("id", (frameMessage jsonData).get "id"),
          ("time", (frameMessage jsonData).get "time"),
          ("utype", (frameMessage jsonData).get "type"),
          ("prevMessageId", (framePayload jsonData).get "prevMessageId")]]
      else []) := by
  rw [← foldl_push_eq_afterSends]
  unfold handleOpcode128
  simp only [frameAttaches, frameElements, frameText, frameMessage, framePayload] at hatt ⊢
  simp only [hatt, List.length_nil, gt_iff_lt, lt_self_iff_false, if_false]
  split_ifs <;> simp [handleShareAttach]

/-- The events a handler sends do not depend on the client it runs on. -/
theorem handleMessage_sends (order : MapOrder) (jsonData : GoMap) :
    ∃ evs, ∀ c, handleMessage order c jsonData = afterSends c evs := by
  by_cases h128 : frameOpcode jsonData = some 128
  · by_cases hatt : frameAttaches jsonData = []
    · exact ⟨_, fun c => by
        rw [handleMessage_of_opcode_128 order c jsonData h128,
          handleOpcode128_without_attaches c jsonData hatt]⟩
    · exact ⟨_, fun c => by
        rw [handleMessage_of_opcode_128 order c jsonData h128,
          handleOpcode128_attaches c jsonData hatt]⟩
  by_cases h83 : frameOpcode jsonData = some 83
  · refine ⟨[[("opcode", GoVal.int 83), ("type", GoVal.str "download_link"),
        ("EXTERNAL", (framePayload jsonData).get "EXTERNAL"),
        ("video_url", videoURLLoop (order (framePayload jsonData)) 0),
        ("raw", GoVal.obj (framePayload jsonData))]], fun c => ?_⟩
    rw [handleMessage_of_opcode_83 order c jsonData h83, ← foldl_push_eq_afterSends]
    simp [handleOpcode83, framePayload]
  by_cases h87 : frameOpcode jsonData = some 87
  · cases hinfo : ((framePayload jsonData).get "info").asSlice with
    | nil =>
      refine ⟨[], fun c => ?_⟩
      rw [handleMessage_of_opcode_87 order c jsonData h87, ← foldl_push_eq_afterSends]
      unfold handleOpcode87
      simp only [framePayload] at hinfo
      simp [hinfo]
    | cons first rest =>
      refine ⟨[[("opcode", GoVal.int 87), ("type", GoVal.str "url_upload"),
          ("url", first.asMap.get "url"), ("token", first.asMap.get "token"),
          ("fileId", first.asMap.get "fileId")]], fun c => ?_⟩
      rw [handleMessage_of_opcode_87 order c jsonData h87, ← foldl_push_eq_afterSends]
      unfold handleOpcode87
      simp only [framePayload] at hinfo
      simp [hinfo]
  · refine ⟨[], fun c => ?_⟩
    rw [handleMessage_of_other_opcode order c jsonData (by
      intro n hn
      refine ⟨?_, ?_, ?_⟩ <;> rintro rfl <;> simp_all), ← foldl_push_eq_afterSends]
    rfl

theorem frameEvents_of_sends (order : MapOrder) (jsonData : GoMap) (evs : List GoMap)
    (h : ∀ c, handleMessage order c jsonData = afterSends c evs) :
    frameEvents order jsonData = evs := by
  unfold frameEvents
  rw [h]
  simp [afterSends, NewChatClient]

theorem handleMessage_eq (order : MapOrder) (c : ChatClient) (jsonData : GoMap) :
    handleMessage order c jsonData = afterSends c (frameEvents order jsonData) := by
  obtain ⟨evs, h⟩ := handleMessage_sends order jsonData
  rw [frameEvents_of_sends order jsonData evs h, h]

theorem frameEvents_of_attaches (order : MapOrder) (jsonData : GoMap)
    (h128 : frameOpcode jsonData = some 128) (hne : frameAttaches jsonData ≠ []) :
    frameEvents order jsonData =
      ((frameAttaches jsonData).map (attachEvents jsonData)).flatten :=
  frameEvents_of_sends order jsonData _ (fun c => by
    rw [handleMessage_of_opcode_128 order c jsonData h128,
      handleOpcode128_attaches c jsonData hne])

theorem frameEvents_without_attaches (order : MapOrder) (jsonData : GoMap)
    (h128 : frameOpcode jsonData = some 128) (hatt : frameAttaches jsonData = []) :
    frameEvents order jsonData =
      if (frameElements jsonData).length > 0 then
        [[("opcode", GoVal.int 128), ("type", GoVal.str "link"),
          ("chat_id", (framePayload jsonData).get "chatId"),
          ("sender", (frameMessage jsonData).get "sender"),
          ("text", GoVal.str (frameText jsonData))]]
      else if frameText jsonData ≠ "" then
        [[("opcode", GoVal.int 128), ("type", GoVal.str "text"),
          ("chat_id", (framePayload jsonData).get "chatId"),
          ("sender", (frameMessage jsonData).get "sender"),
          ("text", GoVal.str (frameText jsonData)),
          ("id", (frameMessage jsonData).get "id"),
          ("time", (frameMessage jsonData).get "time"),
          ("utype", (frameMessage jsonData).get "type"),
          ("prevMessageId", (framePayload jsonData).get "prevMessageId")]]
      else [] :=
  frameEvents_of_sends order jsonData _ (fun c => by
    rw [handleMessage_of_opcode_128 order c jsonData h128,
      handleOpcode128_without_attaches c jsonData hatt])

/-! ## The read loop (C13) -/

theorem listenLoop_reconnects (order : MapOrder) (reads : List ReadResult) (c c2 : ChatClient)
    (h : listenLoop order c reads = some c2) :
    c2.reconnects = c.reconnects ∧ c2.written = c.written ∧ c2.seq = c.seq := by
  induction reads generalizing c with
  | nil =>
    simp only [listenLoop] at h
    split_ifs at h
    cases h
    exact ⟨rfl, rfl, rfl⟩
  | cons r rest ih =>
    simp only [listenLoop] at h
    split_ifs at h
    · cases h
      exact ⟨rfl, rfl, rfl⟩
    · cases r with
      | frame jsonData =>
        simp only [] at h
        split_ifs at h
        have := ih _ h
        rw [handleMessage_eq] at this
        exact this
      | malformed => exact ih _ h
      | closeNormal => cases h; exact ⟨rfl, rfl, rfl⟩
      | readError => cases h; exact ⟨rfl, rfl, rfl⟩

/-- Whenever the read loop ends, however it ends and whatever the reconnect
policy, `listenHandler` starts no reconnect and writes nothing. -/
theorem listenHandler_reconnects (order : MapOrder) (reads : List ReadResult)
    (c c2 : ChatClient) (h : listenHandler order c reads = some (Except.ok c2)) :
    c2.reconnects = c.reconnects ∧ c2.written = c.written ∧ c2.running = false := by
  unfold listenHandler at h
  cases hl : listenLoop order c reads with
  | none => simp [hl] at h
  | some c1 =>
    simp only [hl, Option.some.injEq] at h
    obtain ⟨h1, h2, _⟩ := listenLoop_reconnects order reads c c1 hl
    unfold Stop at h
    simp only [] at h
    split_ifs at h
    cases hws : c1.ws with
    | none =>
      simp only [hws, Except.ok.injEq] at h
      subst h
      exact ⟨h1, h2, rfl⟩
    | some conn =>
      simp only [hws, Except.ok.injEq] at h
      subst h
      exact ⟨h1, h2, rfl⟩

/-- C13, the code at the failing input: a connected client with the reconnect
policy enabled handles one frame, then the read fails with a forced closure.
The read loop ends and the deferred `Stop` runs (not running, `stopChan`
closed, socket closed), and no reconnect is started: the count of reconnect
goroutines stays 0, as with the policy disabled. -/
theorem no_reconnect_after_forced_closure :
    (∃ c2, listenHandler id
        { NewChatClient "token" "device" [WithAllowReconnect true] with
          ws := some { closed := false }, running := true }
        [ReadResult.frame (exampleFrame (GoVal.float 128) "hi" [] []), ReadResult.readError]
        = some (Except.ok c2) ∧
      c2.allowReconnect = true ∧ c2.running = false ∧ c2.stopChanClosed = true ∧
      c2.ws = some { closed := true } ∧ c2.reconnects = 0 ∧ c2.written = []) ∧
    (∃ c2, listenHandler id connectedClient
        [ReadResult.frame (exampleFrame (GoVal.float 128) "hi" [] []), ReadResult.readError]
        = some (Except.ok c2) ∧
      c2.allowReconnect = false ∧ c2.running = false ∧ c2.reconnects = 0 ∧ c2.written = []) :=
  ⟨⟨_, rfl, rfl, rfl, rfl, rfl, rfl, rfl⟩, ⟨_, rfl, rfl, rfl, rfl, rfl⟩⟩

/-! ## Frames without attachments (C18) -/

/-- C18: for every new-message frame (opcode 128) with no attachments: if the
`elements` list is non-empty exactly one `link` event carrying the message
text is pushed; otherwise, if the message text is non-empty, exactly one
`text` event is pushed; otherwise nothing is pushed and the client is
unchanged.  The push is the blocking send on the mailbox of 100 slots: the
event is appended when the mailbox holds fewer than 100 events, and otherwise
the handler is suspended in the send of this event. -/
theorem events_without_attachments (order : MapOrder) (c : ChatClient) (jsonData : GoMap)
    (h128 : frameOpcode jsonData = some 128) (hatt : frameAttaches jsonData = []) :
    (frameElements jsonData ≠ [] →
      ∃ ev, ev = [("opcode", GoVal.int 128), ("type", GoVal.str "link"),
          ("chat_id", (framePayload jsonData).get "chatId"),
          ("sender", (frameMessage jsonData).get "sender"),
          ("text", GoVal.str (frameText jsonData))] ∧
        handleMessage order c jsonData = afterSends c [ev] ∧
        (c.messages.length < mailboxCapacity →
          handleMessage order c jsonData =
            { client := { c with messages := c.messages ++ [ev] }, pending := [] }) ∧
        (mailboxCapacity ≤ c.messages.length →
          handleMessage order c jsonData = { client := c, pending := [ev] })) ∧
    (frameElements jsonData = [] → frameText jsonData ≠ "" →
      ∃ ev, ev.get "type" = GoVal.str "text" ∧
        ev.get "text" = GoVal.str (frameText jsonData) ∧
        handleMessage order c jsonData = afterSends c [ev] ∧
        (c.messages.length < mailboxCapacity →
          handleMessage order c jsonData =
            { client := { c with messages := c.messages ++ [ev] }, pending := [] }) ∧
        (mailboxCapacity ≤ c.messages.length →
          handleMessage order c jsonData = { client := c, pending := [ev] })) ∧
    (frameElements jsonData = [] → frameText jsonData = "" →
      handleMessage order c jsonData = { client := c, pending := [] }) := by
  have hrun := handleOpcode128_without_attaches c jsonData hatt
  rw [← handleMessage_of_opcode_128 order c jsonData h128] at hrun
  refine ⟨?_, ?_, ?_⟩
  · intro hel
    have hlen : (frameElements jsonData).length > 0 := List.length_pos.mpr hel
    simp only [hlen, if_true] at hrun
    refine ⟨_, rfl, hrun, ?_, ?_⟩
    · intro hroom
      rw [hrun, afterSends_of_room c _ (by simpa using hroom)]
    · intro hfull
      rw [hrun, afterSends_of_full c _ hfull]
  · intro hel htext
    simp only [hel, List.length_nil, gt_iff_lt, lt_self_iff_false, if_false, htext, ne_eq,
      not_false_eq_true, if_true] at hrun
    refine ⟨_, by simp [GoMap.get, List.lookup], by simp [GoMap.get, List.lookup], hrun, ?_, ?_⟩
    · intro hroom
      rw [hrun, afterSends_of_room c _ (by simpa using hroom)]
    · intro hfull
      rw [hrun, afterSends_of_full c _ hfull]
  · intro hel htext
    simp only [hel, List.length_nil, gt_iff_lt, lt_self_iff_false, if_false, htext, ne_eq,
      not_true_eq_false] at hrun
    rw [hrun]
    simp [afterSends]

/-- C18, witness: one frame for each of the three cases, and the first on a
client whose mailbox is full. -/
theorem events_without_attachments_witness :
    frameOpcode (exampleFrame (GoVal.float 128) "see" [] [GoVal.obj []]) = some 128 ∧
    handleMessage id connectedClient
        (exampleFrame (GoVal.float 128) "see" [] [GoVal.obj []]) =
      { client := { connectedClient with messages := connectedClient.messages ++
          [[("opcode", GoVal.int 128), ("type", GoVal.str "link"),
            ("chat_id", GoVal.float 77), ("sender", GoVal.float 42),
            ("text", GoVal.str "see")]] },
        pending := [] } ∧
    handleMessage id fullClient
        (exampleFrame (GoVal.float 128) "see" [] [GoVal.obj []]) =
      { client := fullClient,
        pending := [[("opcode", GoVal.int 128), ("type", GoVal.str "link"),
          ("chat_id", GoVal.float 77), ("sender", GoVal.float 42),
          ("text", GoVal.str "see")]] } ∧
    (∃ ev, handleMessage id connectedClient (exampleFrame (GoVal.float 128) "hi" [] []) =
        { client := { connectedClient with messages := connectedClient.messages ++ [ev] },
          pending := [] } ∧
      ev.get "type" = GoVal.str "text" ∧
      ev.get "text" = GoVal.str (frameText (exampleFrame (GoVal.float 128) "hi" [] []))) ∧
    handleMessage id connectedClient (exampleFrame (GoVal.float 128) "" [] [])
      = { client := connectedClient, pending := [] } := by
  have hel : frameElements (exampleFrame (GoVal.float 128) "see" [] [GoVal.obj []]) ≠ [] := by
    simp [frameElements, frameMessage, framePayload, exampleFrame, GoMap.get,
      List.lookup, GoVal.asMap, GoVal.asSlice]
  obtain ⟨ev1, hev1, _, hroom1, _⟩ := (events_without_attachments id connectedClient
    (exampleFrame (GoVal.float 128) "see" [] [GoVal.obj []]) (by decide) rfl).1 hel
  obtain ⟨ev2, hev2, _, _, hfull2⟩ := (events_without_attachments id fullClient
    (exampleFrame (GoVal.float 128) "see" [] [GoVal.obj []]) (by decide) rfl).1 hel
  obtain ⟨ev3, htype3, htext3, _, hroom3, _⟩ := (events_without_attachments id connectedClient
    (exampleFrame (GoVal.float 128) "hi" [] []) (by decide) rfl).2.1 rfl (by decide)
  subst hev1
  subst hev2
  exact ⟨by decide, hroom1 (by decide), hfull2 (by decide),
    ⟨ev3, hroom3 (by decide), htype3, htext3⟩,
    (events_without_attachments id connectedClient
      (exampleFrame (GoVal.float 128) "" [] []) (by decide) rfl).2.2 rfl rfl⟩

/-! ## The fields of the events of a new-message frame -/

/-- What every event pushed for one attachment carries: its opcode and type,
and which fields of the frame. -/
theorem attachEvents_fields (jsonData : GoMap) (attach : GoVal) (ev : GoMap)
    (hev : ev ∈ attachEvents jsonData attach) :
    ev.get "opcode" = GoVal.int 128 ∧
    (∃ t, ev.get "type" = GoVal.str t ∧
      t ∈ ["photo", "photo_with_text", "video", "video_with_text", "file", "link"]) ∧
    ev.get "sender" = (frameMessage jsonData).get "sender" ∧
    (ev.get "type" ≠ GoVal.str "file" →
      ev.get "chat_id" = (framePayload jsonData).get "chatId") ∧
    (ev.get "type" ≠ GoVal.str "link" → ev.get "id" = (frameMessage jsonData).get "id") ∧
    (ev.get "type" ≠ GoVal.str "link" → ev.get "type" ≠ GoVal.str "file" →
      ev.get "time" = (frameMessage jsonData).get "time") := by
  cases hk : knownAttachType attach with
  | false =>
    rw [attachEvents_unknown jsonData attach hk] at hev
    simp at hev
  | true =>
    simp only [knownAttachType, decide_eq_true_eq, List.mem_cons, List.mem_singleton,
      List.not_mem_nil, or_false] at hk
    unfold attachEvents handleAttach at hev
    simp only [attachType] at hk hev
    generalize (attach.asMap.get "_type").asString = t at hk hev
    rcases hk with rfl | rfl | rfl | rfl
    · by_cases ht : frameText jsonData = ""
      · simp [handlePhotoAttach, push, NewChatClient, mailboxCapacity, ht] at hev
        subst hev
        simp [GoMap.get, GoMap.set, List.lookup]
      · simp [handlePhotoAttach, push, NewChatClient, mailboxCapacity, ht] at hev
        subst hev
        simp [GoMap.get, GoMap.set, List.lookup]
    · by_cases ht : frameText jsonData = ""
      · simp [handleVideoAttach, push, NewChatClient, mailboxCapacity, ht] at hev
        subst hev
        simp [GoMap.get, GoMap.set, List.lookup]
      · simp [handleVideoAttach, push, NewChatClient, mailboxCapacity, ht] at hev
        subst hev
        simp [GoMap.get, GoMap.set, List.lookup]
    · simp [handleFileAttach, push, NewChatClient, mailboxCapacity] at hev
      subst hev
      simp [GoMap.get, List.lookup]
    · simp [handleShareAttach, push, NewChatClient, mailboxCapacity] at hev
      subst hev
      simp [GoMap.get, List.lookup]

theorem frameEvents_128_fields (order : MapOrder) (jsonData : GoMap)
    (h128 : frameOpcode jsonData = some 128) (ev : GoMap)
    (hev : ev ∈ frameEvents order jsonData) :
    ev.get "opcode" = GoVal.int 128 ∧
    (∃ t, ev.get "type" = GoVal.str t ∧
      t ∈ ["text", "photo", "photo_with_text", "video", "video_with_text", "file", "link"]) ∧
    ev.get "sender" = (frameMessage jsonData).get "sender" ∧
    (ev.get "type" ≠ GoVal.str "file" →
      ev.get "chat_id" = (framePayload jsonData).get "chatId") ∧
    (ev.get "type" ≠ GoVal.str "link" → ev.get "id" = (frameMessage jsonData).get "id") ∧
    (ev.get "type" ≠ GoVal.str "link" → ev.get "type" ≠ GoVal.str "file" →
      ev.get "time" = (frameMessage jsonData).get "time") := by
  by_cases hatt : frameAttaches jsonData = []
  · rw [frameEvents_without_attaches order jsonData h128 hatt] at hev
    split_ifs at hev
    · simp only [List.mem_singleton] at hev
      subst hev
      simp [GoMap.get, List.lookup]
    · simp only [List.mem_singleton] at hev
      subst hev
      simp [GoMap.get, List.lookup]
    · simp at hev
  · rw [frameEvents_of_attaches order jsonData h128 hatt] at hev
    simp only [List.mem_flatten, List.mem_map] at hev
    obtain ⟨l, ⟨a, _, rfl⟩, hmem⟩ := hev
    obtain ⟨h1, ⟨t, ht, hin⟩, h3, h4, h5, h6⟩ := attachEvents_fields jsonData a ev hmem
    refine ⟨h1, ⟨t, ht, ?_⟩, h3, h4, h5, h6⟩
    simp only [List.mem_cons, List.mem_singleton, List.not_mem_nil, or_false] at hin ⊢
    exact Or.inr hin

/-! ## The fields every new-message event carries (C19) -/

/-- C19, counterexample: for a frame with a `FILE` and a `SHARE` attachment
(chat 77, message `m1`, time 1000) the file event has no `chat_id` and no
`time` field (its chat identifier is under `chatId`), and the link event has
neither `id` nor `time`. -/
theorem file_and_link_events_lack_fields :
    frameOpcode (exampleFrame (GoVal.float 128) "doc"
      [exampleAttach "FILE" "fileId" "f1", exampleAttach "SHARE" "url" "u"] []) = some 128 ∧
    ((framePayload (exampleFrame (GoVal.float 128) "doc"
        [exampleAttach "FILE" "fileId" "f1", exampleAttach "SHARE" "url" "u"] [])).get "chatId",
      (frameMessage (exampleFrame (GoVal.float 128) "doc"
        [exampleAttach "FILE" "fileId" "f1", exampleAttach "SHARE" "url" "u"] [])).get "id",
      (frameMessage (exampleFrame (GoVal.float 128) "doc"
        [exampleAttach "FILE" "fileId" "f1", exampleAttach "SHARE" "url" "u"] [])).get "time")
      = (GoVal.float 77, GoVal.str "m1", GoVal.float 1000) ∧
    (handleMessage id connectedClient (exampleFrame (GoVal.float 128) "doc"
        [exampleAttach "FILE" "fileId" "f1", exampleAttach "SHARE" "url" "u"]
        [])).client.messages.map
      (fun ev => (ev.get "type", ev.get "chat_id", ev.get "chatId", ev.get "id", ev.get "time"))
      = [(GoVal.str "file", GoVal.null, GoVal.float 77, GoVal.str "m1", GoVal.null),
         (GoVal.str "link", GoVal.float 77, GoVal.null, GoVal.null, GoVal.null)] :=
  ⟨by decide, rfl, rfl⟩

/-- C19, amended: every event produced from a new-message frame, of whichever
kind, carries the sender of the source frame; every event other than the file
event carries the chat identifier under the field name `chat_id`; every event
other than the link event carries the message identifier; and the text,
photo, photo_with_text, video and video_with_text events carry the
timestamp.  `evs` are the events the handlers send, in order: with room in
the mailbox all of them are appended to it, and on a mailbox that fills up the
first ones are appended and the rest is what the suspended handler has still
to send (`afterSends`); the fields are those of every one of them. -/
theorem new_message_event_fields (order : MapOrder) (c : ChatClient) (jsonData : GoMap)
    (h128 : frameOpcode jsonData = some 128) :
    ∃ evs, handleMessage order c jsonData = afterSends c evs ∧
      (c.messages.length + evs.length ≤ mailboxCapacity →
        handleMessage order c jsonData =
          { client := { c with messages := c.messages ++ evs }, pending := [] }) ∧
      ∀ ev ∈ evs,
        ev.get "sender" = (frameMessage jsonData).get "sender" ∧
        (ev.get "type" ≠ GoVal.str "file" →
          ev.get "chat_id" = (framePayload jsonData).get "chatId") ∧
        (ev.get "type" ≠ GoVal.str "link" →
          ev.get "id" = (frameMessage jsonData).get "id") ∧
        (ev.get "type" ≠ GoVal.str "link" → ev.get "type" ≠ GoVal.str "file" →
          ev.get "time" = (frameMessage jsonData).get "time") := by
  refine ⟨frameEvents order jsonData, handleMessage_eq order c jsonData, ?_, ?_⟩
  · intro hroom
    rw [handleMessage_eq, afterSends_of_room c _ hroom]
  · intro ev hev
    obtain ⟨_, _, h3, h4, h5, h6⟩ := frameEvents_128_fields order jsonData h128 ev hev
    exact ⟨h3, h4, h5, h6⟩

/-- C19, witness: a frame with text and a photo, a video and a file, on an
empty mailbox. -/
theorem new_message_event_fields_witness :
    frameOpcode (exampleFrame (GoVal.float 128) "look"
      [exampleAttach "PHOTO" "photoId" "p1", exampleAttach "VIDEO" "videoId" "v1",
       exampleAttach "FILE" "fileId" "f1"] []) = some 128 ∧
    ∃ evs, handleMessage id connectedClient (exampleFrame (GoVal.float 128) "look"
        [exampleAttach "PHOTO" "photoId" "p1", exampleAttach "VIDEO" "videoId" "v1",
         exampleAttach "FILE" "fileId" "f1"] []) = afterSends connectedClient evs ∧
      (handleMessage id connectedClient (exampleFrame (GoVal.float 128) "look"
        [exampleAttach "PHOTO" "photoId" "p1", exampleAttach "VIDEO" "videoId" "v1",
         exampleAttach "FILE" "fileId" "f1"] [])).client.messages.map
          (fun ev => (ev.get "type", ev.get "sender", ev.get "id")) =
        [(GoVal.str "photo_with_text", GoVal.float 42, GoVal.str "m1"),
         (GoVal.str "video_with_text", GoVal.float 42, GoVal.str "m1"),
         (GoVal.str "file", GoVal.float 42, GoVal.str "m1")] ∧
      ∀ ev ∈ evs,
        ev.get "sender" = (frameMessage (exampleFrame (GoVal.float 128) "look"
          [exampleAttach "PHOTO" "photoId" "p1", exampleAttach "VIDEO" "videoId" "v1",
           exampleAttach "FILE" "fileId" "f1"] [])).get "sender" := by
  obtain ⟨evs, hevs, _, hall⟩ := new_message_event_fields id connectedClient
    (exampleFrame (GoVal.float 128) "look"
      [exampleAttach "PHOTO" "photoId" "p1", exampleAttach "VIDEO" "videoId" "v1",
       exampleAttach "FILE" "fileId" "f1"] []) (by decide)
  exact ⟨by decide, evs, hevs, rfl, fun ev hev => (hall ev hev).1⟩

/-! ## The closed set of event kinds (C20) -/

theorem frameEvents_kinds (order : MapOrder) (jsonData : GoMap) (ev : GoMap)
    (hev : ev ∈ frameEvents order jsonData) :
    ∃ n t, frameOpcode jsonData = some n ∧ (n = 128 ∨ n = 83 ∨ n = 87) ∧
      ev.get "opcode" = GoVal.int n ∧ ev.get "type" = GoVal.str t ∧ t ∈ specEventTypes ∧
      (n = 83 → t = "download_link") ∧ (n = 87 → t = "url_upload") := by
  by_cases h128 : frameOpcode jsonData = some 128
  · obtain ⟨h1, ⟨t, ht, hin⟩, _⟩ := frameEvents_128_fields order jsonData h128 ev hev
    refine ⟨128, t, h128, Or.inl rfl, h1, ht, ?_, fun h => absurd h (by decide),
      fun h => absurd h (by decide)⟩
    simp only [specEventTypes, List.mem_cons, List.mem_singleton, List.not_mem_nil,
      or_false] at hin ⊢
    tauto
  by_cases h83 : frameOpcode jsonData = some 83
  · unfold frameEvents at hev
    rw [handleMessage_of_opcode_83 order _ jsonData h83] at hev
    simp [handleOpcode83, push, NewChatClient, mailboxCapacity] at hev
    subst hev
    exact ⟨83, "download_link", h83, Or.inr (Or.inl rfl), by simp [GoMap.get, List.lookup],
      by simp [GoMap.get, List.lookup], by decide, fun _ => rfl,
      fun h => absurd h (by decide)⟩
  by_cases h87 : frameOpcode jsonData = some 87
  · unfold frameEvents at hev
    rw [handleMessage_of_opcode_87 order _ jsonData h87] at hev
    unfold handleOpcode87 at hev
    simp only [] at hev
    split at hev
    · simp [push, NewChatClient, mailboxCapacity] at hev
      subst hev
      exact ⟨87, "url_upload", h87, Or.inr (Or.inr rfl), by simp [GoMap.get, List.lookup],
        by simp [GoMap.get, List.lookup], by decide, fun h => absurd h (by decide),
        fun _ => rfl⟩
    · simp [NewChatClient] at hev
  · unfold frameEvents at hev
    rw [handleMessage_of_other_opcode order _ jsonData (by
      intro n hn
      refine ⟨?_, ?_, ?_⟩ <;> rintro rfl <;> simp_all)] at hev
    simp [NewChatClient] at hev

/-- C20, counterexample: for the frame with opcode 128.5 the event pushed has
the opcode field 128, which is not the opcode of the frame. -/
theorem event_opcode_differs_from_fractional_opcode :
    (exampleFrame (GoVal.float (mkRat 257 2)) "hi" [] []).get "opcode"
        = GoVal.float (mkRat 257 2) ∧
      (handleMessage id connectedClient
        (exampleFrame (GoVal.float (mkRat 257 2)) "hi" [] [])).client.messages.map
          (fun ev => (ev.get "opcode", ev.get "type"))
        = [(GoVal.int 128, GoVal.str "text")] ∧
      ((128 : Int) : ℚ) ≠ mkRat 257 2 :=
  ⟨rfl, rfl, by decide⟩

/-- C20, amended: for every decoded inbound frame, every event that
`handleMessage` sends has an opcode field equal to the opcode the dispatcher
switches on, `int(opcode)` of the frame (the frame's opcode with its fraction
discarded), which is one of 128, 83, 87, and a type field drawn from the
closed set text, photo, photo_with_text, video, video_with_text, file, link,
download_link, url_upload, with opcode 83 giving only download_link and
opcode 87 only url_upload; nothing but the events sent changes.  `evs` are
the events the handlers send, in order: with room in the mailbox all of them
are appended to it, and on a mailbox that fills up the first ones are appended
and the rest is what the suspended handler has still to send
(`afterSends`). -/
theorem event_kinds_closed (order : MapOrder) (c : ChatClient) (jsonData : GoMap) :
    ∃ evs, handleMessage order c jsonData = afterSends c evs ∧
      (c.messages.length + evs.length ≤ mailboxCapacity →
        handleMessage order c jsonData =
          { client := { c with messages := c.messages ++ evs }, pending := [] }) ∧
      ∀ ev ∈ evs, ∃ n t, frameOpcode jsonData = some n ∧ (n = 128 ∨ n = 83 ∨ n = 87) ∧
        ev.get "opcode" = GoVal.int n ∧ ev.get "type" = GoVal.str t ∧ t ∈ specEventTypes ∧
        (n = 83 → t = "download_link") ∧ (n = 87 → t = "url_upload") :=
  ⟨frameEvents order jsonData, handleMessage_eq order c jsonData,
    fun hroom => by rw [handleMessage_eq, afterSends_of_room c _ hroom],
    fun ev hev => frameEvents_kinds order jsonData ev hev⟩

/-! ## Lemmas on outcomes -/

theorem stopOutcome_toExcept (c : ChatClient) : (stopOutcome c).toExcept = Stop c := by
  unfold stopOutcome Stop Outcome.toExcept
  simp only []
  split_ifs
  · rfl
  · cases c.ws <;> rfl

theorem sendOutcome_toExcept (c : ChatClient) (data : GoMap) (sendType : String) :
    (sendOutcome c data sendType).toExcept = send c data sendType := by
  unfold sendOutcome send
  cases hws : c.ws with
  | none =>
    simp only []
    rw [← stopOutcome_toExcept]
    cases hf : (stopOutcome c).fault with
    | some f => simp [Outcome.toExcept, hf]
    | none =>
      simp only [Outcome.toExcept, hf]
      split_ifs <;> simp [hf]
  | some conn =>
    simp only []
    split_ifs <;> rfl

theorem command_outcome_toExcept (c : ChatClient) (cmd : Command) :
    (cmd.outcome c).toExcept = cmd.run c := by
  cases cmd with
  | sendMessage chatID text now =>
    simp only [Command.outcome, Command.run, sendMessageOutcome, SendMessage,
      ← sendOutcome_toExcept]
    generalize sendOutcome _ _ "Message" = o
    cases hf : o.fault with
    | some f => simp [Outcome.toExcept, hf]
    | none => simp [Outcome.toExcept, hf]
  | sendFile chatID fileID now =>
    simp only [Command.outcome, Command.run, sendFileOutcome, SendFile, sendOutcome_toExcept]
  | subscribeChat chatID =>
    simp only [Command.outcome, Command.run, subscribeChatOutcome, SubscribeChat,
      sendOutcome_toExcept]
  | getVideoURL videoID chatID messageID =>
    simp only [Command.outcome, Command.run, getVideoURLOutcome, GetVideoURL,
      sendOutcome_toExcept]
  | requestURLToSendFile count =>
    simp only [Command.outcome, Command.run, requestURLToSendFileOutcome, RequestURLToSendFile,
      sendOutcome_toExcept]
  | ping =>
    simp only [Command.outcome, Command.run, keepaliveTickOutcome, keepaliveTick]
    split_ifs
    · rfl
    · exact sendOutcome_toExcept _ _ _

theorem connectOutcome_toExcept (c : ChatClient) (dial : Except String Conn) :
    (connectOutcome c dial).toExcept = (Connect c dial).map Prod.fst := by
  cases dial with
  | error err => rfl
  | ok ws =>
    simp only [connectOutcome, Connect, sendInfoOutcome, sendInfo, sendHandshakeOutcome,
      sendHandshake, ← sendOutcome_toExcept]
    generalize sendOutcome _ _ "Info" = o
    cases hf : o.fault with
    | some f => simp [Outcome.toExcept, hf, Except.map]
    | none =>
      simp only [Outcome.toExcept, hf]
      generalize sendOutcome _ _ "Handshake" = o2
      cases hf2 : o2.fault <;> simp [Except.map]

theorem toExcept_ok_state (o : Outcome) (c2 : ChatClient) (h : o.toExcept = Except.ok c2) :
    o.state = c2 := by
  unfold Outcome.toExcept at h
  cases hf : o.fault with
  | none =>
    simp only [hf, Except.ok.injEq] at h
    exact h
  | some f => simp [hf] at h

theorem stopOutcome_seq (c : ChatClient) :
    (stopOutcome c).state.seq = c.seq ∧ (stopOutcome c).state.written = c.written ∧
      ((stopOutcome c).state.ws = none ↔ c.ws = none) := by
  unfold stopOutcome
  simp only []
  split_ifs
  · exact ⟨rfl, rfl, Iff.rfl⟩
  · cases h : c.ws <;> simp

theorem sendOutcome_seq (c : ChatClient) (data : GoMap) (sendType : String) :
    (sendOutcome c data sendType).state.seq = c.seq ∧
      ((sendOutcome c data sendType).state.ws = none ↔ c.ws = none) ∧
      (c.ws = none → (sendOutcome c data sendType).state.written = c.written) := by
  obtain ⟨h1, h2, h3⟩ := stopOutcome_seq c
  unfold sendOutcome
  cases hws : c.ws with
  | none =>
    simp only [hws] at h3
    simp only []
    cases hf : (stopOutcome c).fault with
    | some f => exact ⟨h1, by simpa using h3, fun _ => h2⟩
    | none =>
      simp only []
      split_ifs
      · exact ⟨h1, by simpa using h3, fun _ => h2⟩
      · exact ⟨h1, by simpa using h3, fun _ => h2⟩
  | some conn =>
    simp only []
    split_ifs <;> simp [hws]

theorem command_outcome_seq (c : ChatClient) (cmd : Command) :
    c.seq ≤ (cmd.outcome c).state.seq := by
  cases cmd with
  | sendMessage chatID text now =>
    simp only [Command.outcome, sendMessageOutcome]
    split
    · rw [(sendOutcome_seq _ _ _).1]
      simp
    · rw [(sendOutcome_seq _ _ _).1]
      simp only []
      rw [(sendOutcome_seq _ _ _).1]
      simp only []
      omega
  | sendFile chatID fileID now =>
    simp only [Command.outcome, sendFileOutcome, (sendOutcome_seq _ _ _).1]
    omega
  | subscribeChat chatID =>
    simp only [Command.outcome, subscribeChatOutcome, (sendOutcome_seq _ _ _).1]
    omega
  | getVideoURL videoID chatID messageID =>
    simp only [Command.outcome, getVideoURLOutcome, (sendOutcome_seq _ _ _).1]
    omega
  | requestURLToSendFile count =>
    simp only [Command.outcome, requestURLToSendFileOutcome, (sendOutcome_seq _ _ _).1]
    omega
  | ping =>
    simp only [Command.outcome, keepaliveTickOutcome]
    split_ifs
    · exact le_refl _
    · rw [(sendOutcome_seq _ _ _).1]
      simp only []
      omega

theorem connectOutcome_seq (c : ChatClient) (dial : Except String Conn) :
    c.seq ≤ (connectOutcome c dial).state.seq := by
  cases dial with
  | error err => exact le_refl _
  | ok ws =>
    simp only [connectOutcome, sendInfoOutcome]
    split
    · rw [(sendOutcome_seq _ _ _).1]
      simp
    · simp only [sendHandshakeOutcome]
      rw [(sendOutcome_seq _ _ _).1]
      simp only []
      rw [(sendOutcome_seq _ _ _).1]
      simp only []
      omega

theorem clientOp_outcome_seq (c : ChatClient) (op : ClientOp) :
    c.seq ≤ (op.outcome c).state.seq := by
  cases op with
  | command cmd => exact command_outcome_seq c cmd
  | stop => exact le_of_eq (stopOutcome_seq c).1.symm
  | connect dial => exact connectOutcome_seq c dial
  | handle order jsonData =>
    simp only [ClientOp.outcome]
    rw [handleMessage_eq]
    exact le_refl _

theorem clientLife_seq (ops : List ClientOp) (c : ChatClient) :
    c.seq ≤ (clientLife c ops).seq := by
  induction ops generalizing c with
  | nil => exact le_refl _
  | cons op rest ih => exact le_trans (clientOp_outcome_seq c op) (ih _)

/-! ## The counter is consumed without a socket (C21) -/

/-- What the calls do to `seq` on a client without a socket.  A command with
one `send` leaves `seq` 1 higher and writes nothing, whether it returns or
panics.  `SendMessage` leaves `seq` 2 higher when `stopChan` is still open
(it panics in its second `send`), and only 1 higher when `stopChan` is already
closed, its first `send` panicking before the second increment.  `Stop` keeps
`seq`, `Connect` does not lower it, and `seq` never decreases over a sequence
of steps. -/
theorem seq_after_call_without_socket (c : ChatClient) (hws : c.ws = none) :
    (∀ chatID, (subscribeChatOutcome c chatID).state.seq = c.seq + 1 ∧
      (subscribeChatOutcome c chatID).state.written = c.written) ∧
    (∀ videoID chatID messageID,
      (getVideoURLOutcome c videoID chatID messageID).state.seq = c.seq + 1 ∧
      (getVideoURLOutcome c videoID chatID messageID).state.written = c.written) ∧
    (∀ count, (requestURLToSendFileOutcome c count).state.seq = c.seq + 1 ∧
      (requestURLToSendFileOutcome c count).state.written = c.written) ∧
    (∀ chatID fileID now, (sendFileOutcome c chatID fileID now).state.seq = c.seq + 1 ∧
      (sendFileOutcome c chatID fileID now).state.written = c.written) ∧
    (∀ chatID text now, c.stopChanClosed = false →
      (sendMessageOutcome c chatID text now).state.seq = c.seq + 2 ∧
      (sendMessageOutcome c chatID text now).state.written = c.written ∧
      (sendMessageOutcome c chatID text now).fault = some Fault.closeOfClosedChannel) ∧
    (∀ chatID text now, c.stopChanClosed = true →
      (sendMessageOutcome c chatID text now).state.seq = c.seq + 1 ∧
      (sendMessageOutcome c chatID text now).state.written = c.written ∧
      (sendMessageOutcome c chatID text now).fault = some Fault.closeOfClosedChannel) ∧
    (∀ (cmd : Command) (c2 : ChatClient), cmd.run c = Except.ok c2 → (cmd.outcome c).state = c2) ∧
    (∀ c0 : ChatClient, (stopOutcome c0).state.seq = c0.seq) ∧
    (∀ (c0 : ChatClient) (dial : Except String Conn),
      c0.seq ≤ (connectOutcome c0 dial).state.seq) ∧
    (∀ (c0 : ChatClient) (ops : List ClientOp), c0.seq ≤ (clientLife c0 ops).seq) := by
  refine ⟨?_, ?_, ?_, ?_, ?_, ?_, ?_, fun c0 => (stopOutcome_seq c0).1, connectOutcome_seq,
    fun c0 ops => clientLife_seq ops c0⟩
  · intro chatID
    simp only [subscribeChatOutcome]
    exact ⟨(sendOutcome_seq _ _ _).1, (sendOutcome_seq _ _ _).2.2 hws⟩
  · intro videoID chatID messageID
    simp only [getVideoURLOutcome]
    exact ⟨(sendOutcome_seq _ _ _).1, (sendOutcome_seq _ _ _).2.2 hws⟩
  · intro count
    simp only [requestURLToSendFileOutcome]
    exact ⟨(sendOutcome_seq _ _ _).1, (sendOutcome_seq _ _ _).2.2 hws⟩
  · intro chatID fileID now
    simp only [sendFileOutcome]
    exact ⟨(sendOutcome_seq _ _ _).1, (sendOutcome_seq _ _ _).2.2 hws⟩
  · intro chatID text now hopen
    cases hre : c.allowReconnect <;>
      simp [sendMessageOutcome, sendOutcome, stopOutcome, hws, hopen, hre] <;> ring
  · intro chatID text now hclosed
    simp [sendMessageOutcome, sendOutcome, stopOutcome, hws, hclosed]
  · intro cmd c2 h
    rw [← command_outcome_toExcept] at h
    exact toExcept_ok_state _ _ h

/-- C21, the code at the failing input: on a client without a socket whose
`stopChan` is already closed (a new client after `Stop`), `SendMessage` panics
in its first `send`, before its second `c.seq++`: `seq` goes from 0 to 1, not
to 2, and nothing is written; a `SubscribeChat` on the same client panics too,
with `seq` 1.  On the new client itself `SendMessage` takes `seq` to 2 and
panics in its second `send`. -/
theorem sendMessage_after_stop_consumes_one :
    (stopOutcome (NewChatClient "token" "device" [])).fault = none ∧
    (stopOutcome (NewChatClient "token" "device" [])).state.ws = none ∧
    (stopOutcome (NewChatClient "token" "device" [])).state.seq = 0 ∧
    ((sendMessageOutcome (stopOutcome (NewChatClient "token" "device" [])).state
        (GoVal.int 123456) "Hello" 0).state.seq,
      (sendMessageOutcome (stopOutcome (NewChatClient "token" "device" [])).state
        (GoVal.int 123456) "Hello" 0).state.written,
      (sendMessageOutcome (stopOutcome (NewChatClient "token" "device" [])).state
        (GoVal.int 123456) "Hello" 0).fault)
      = (1, [], some Fault.closeOfClosedChannel) ∧
    SendMessage (stopOutcome (NewChatClient "token" "device" [])).state
        (GoVal.int 123456) "Hello" 0 = Except.error Fault.closeOfClosedChannel ∧
    ((subscribeChatOutcome (stopOutcome (NewChatClient "token" "device" [])).state
        (GoVal.int 123456)).state.seq,
      (subscribeChatOutcome (stopOutcome (NewChatClient "token" "device" [])).state
        (GoVal.int 123456)).fault)
      = (1, some Fault.closeOfClosedChannel) ∧
    ((sendMessageOutcome (NewChatClient "token" "device" [])
        (GoVal.int 123456) "Hello" 0).state.seq,
      (sendMessageOutcome (NewChatClient "token" "device" [])
        (GoVal.int 123456) "Hello" 0).fault)
      = (2, some Fault.closeOfClosedChannel) :=
  ⟨rfl, rfl, rfl, rfl, rfl, rfl, rfl⟩


end MaxClientApi
